import Mathlib

/-!
Verification of the plain-English-to-JSON test-generation pipeline.

This file shallowly embeds the core of the repository:
  * `src/src/core/dsl-generator.ts` (the second, "universal strict mode"
    revision: `generateTestCase`, `extractPath`, `parseFormInteractions`,
    `extractExactValues`, `parseClickActions`, `parseAssertions`,
    `extractTags`),
  * `src/src/core/universal-strict-generator.ts` (`generateFromPlainEnglish`,
    `extractAllValues`, `parseToResolvedSteps`, `enhanceWithStrictMode`,
    `performSelfValidation`),
  * `src/src/core/code-generator.ts` (the Playwright/TypeScript rendering
    path, which is the only one exercised by `generateFromPlainEnglish`),
  * `src/src/core/strict-validator.ts` (`validateStrictMode`).

JS strings are modelled as `List Char`.  Each JS regular expression used by
the source is hand-compiled to a deterministic matcher built from a small set
of combinators; the combinators implement the JS backtracking rules
(leftmost match, greedy quantifiers tried longest first, alternatives in
order, optional groups preferring presence with fallback).  Every matcher
carries a doc comment quoting the regex it implements.
-/

set_option maxRecDepth 20000

namespace Spec

/-- JS strings are modelled as lists of characters. -/
abbrev Str := List Char

/-- Character-list view of a Lean string literal. -/
def str (s : String) : Str := s.data

/-- The JS `\s` class, restricted to the ASCII whitespace characters
(space, tab, line feed, carriage return, vertical tab, form feed).
All inputs handled by this repository are ASCII. -/
def wsChar (c : Char) : Bool :=
  c.toNat = 32 || c.toNat = 9 || c.toNat = 10 || c.toNat = 13 ||
  c.toNat = 11 || c.toNat = 12

/-- The class `[A-Za-z0-9]`. -/
def alnumChar (c : Char) : Bool :=
  (65 ≤ c.toNat && c.toNat ≤ 90) || (97 ≤ c.toNat && c.toNat ≤ 122) ||
  (48 ≤ c.toNat && c.toNat ≤ 57)

/-- The JS `\w` class `[A-Za-z0-9_]`. -/
def wordChar (c : Char) : Bool := alnumChar c || c.toNat = 95

/-- The credential class `[A-Za-z0-9_@.-]` used throughout the extraction
regexes (also written `[A-Za-z0-9_\.@-]` in the source; same set). -/
def credChar (c : Char) : Bool :=
  wordChar c || c.toNat = 64 || c.toNat = 46 || c.toNat = 45

/-- The password class `[A-Za-z0-9_\.@!-]` of `extractAllValues`. -/
def pwdChar (c : Char) : Bool := credChar c || c.toNat = 33

/-- The class `['"']`, i.e. an ASCII single or double quote. -/
def quoteCh (c : Char) : Bool := c.toNat = 39 || c.toNat = 34

/-- The class `[^'"]`. -/
def notQuote (c : Char) : Bool := !quoteCh c

/-- The class `[A-Za-z]`. -/
def alphaChar (c : Char) : Bool :=
  (65 ≤ c.toNat && c.toNat ≤ 90) || (97 ≤ c.toNat && c.toNat ≤ 122)

/-- The email local-part class `[A-Za-z0-9._%+-]`. -/
def emailLocalChar (c : Char) : Bool :=
  alnumChar c || c.toNat = 46 || c.toNat = 95 || c.toNat = 37 ||
  c.toNat = 43 || c.toNat = 45

/-- The email domain class `[A-Za-z0-9.-]`. -/
def emailDomChar (c : Char) : Bool :=
  alnumChar c || c.toNat = 46 || c.toNat = 45

/-- The class `[^,.\n]` of the expected-outcome capture. -/
def expectedChar (c : Char) : Bool :=
  !(c.toNat = 44 || c.toNat = 46 || c.toNat = 10)

/-- JS `String.prototype.includes` (case-sensitive substring test):
`sub` occurs at some position of `s`. -/
def jsIncludes : Str → Str → Bool
  | [], sub => sub.isEmpty
  | c :: t, sub => sub.isPrefixOf (c :: t) || jsIncludes t sub

/-- JS `String.prototype.startsWith`. -/
def jsStartsWith (s p : Str) : Bool := p.isPrefixOf s

/-- JS `String.prototype.toLowerCase` (ASCII inputs). -/
def jsToLower (s : Str) : Str := s.map Char.toLower

/-- JS `String.prototype.trim`. -/
def jsTrim (s : Str) : Str :=
  ((s.dropWhile wsChar).reverse.dropWhile wsChar).reverse

/-- JS truthiness of an optional string (absent and empty are falsy). -/
def truthy : Option Str → Bool
  | some s => !s.isEmpty
  | none => false

/-- JS `a || b` on an optional string `a` with string fallback `b`. -/
def jsOr (a : Option Str) (b : Str) : Str :=
  match a with
  | some s => if s.isEmpty then b else s
  | none => b

/-- Interpolation of a possibly-undefined JS string into a template
literal: `undefined` prints as the text `undefined`. -/
def undefOr (a : Option Str) : Str :=
  match a with
  | some s => s
  | none => str ("undefined")

/-- `capitalizeFirst` (dsl-generator.ts line 737): upper-case the first
character. -/
def capitalizeFirst : Str → Str
  | [] => []
  | c :: t => c.toUpper :: t

/-! ### Regex combinators

A matcher at a position has type `Str → Option α`: it consumes a prefix of
the input and either fails or returns a result (captures, or the rest of
the input).  `scanFor` turns a position matcher into a whole-string search,
trying start positions left to right exactly as the JS regex engine does. -/

/-- Case-insensitive literal (all the source regexes carry the `i` flag). -/
def litCI : Str → Str → Option Str
  | [], s => some s
  | _ :: _, [] => none
  | p :: ps, c :: cs => if p.toLower = c.toLower then litCI ps cs else none

/-- `\s+`, greedy.  In every pattern below the continuation of a `\s+`
cannot consume whitespace, so the greedy choice never needs revisiting. -/
def ws1 : Str → Option Str
  | [] => none
  | c :: t => if wsChar c then some (t.dropWhile wsChar) else none

/-- `\s*`, greedy (same remark as `ws1`). -/
def ws0 (s : Str) : Str := s.dropWhile wsChar

/-- A single character from a class. -/
def oneOf (cls : Char → Bool) : Str → Option Str
  | [] => none
  | c :: t => if cls c then some t else none

/-- An optional group `(?:pre)?` followed by `cont`, with the JS
backtracking rule: prefer the group present, fall back to the group absent
when the continuation fails. -/
def optThen (pre : Str → Option Str) (cont : Str → Option α) (s : Str) :
    Option α :=
  match pre s with
  | some s2 =>
    match cont s2 with
    | some a => some a
    | none => cont s
  | none => cont s

/-- Backtracking engine for a greedy captured class: `capRev` is the
reversed, not-yet-relinquished part of the greedy run; candidate captures
are tried longest first, handing one character back to the continuation
after each failure — the JS semantics for `(cls+)cont`. -/
def giveBack (cont : Str → Option β) : Str → Str → Option (Str × β)
  | [], _ => none
  | c :: capRev, rest =>
    match cont rest with
    | some b => some ((c :: capRev).reverse, b)
    | none => giveBack cont capRev (c :: rest)

/-- A captured `(cls+)` followed by `cont`, greedy with backtracking. -/
def capPlus (cls : Char → Bool) (cont : Str → Option β) (s : Str) :
    Option (Str × β) :=
  giveBack cont (s.takeWhile cls).reverse (s.dropWhile cls)

/-- A captured `(cls*)` followed by `cont` (also tries the empty capture). -/
def capStar (cls : Char → Bool) (cont : Str → Option β) (s : Str) :
    Option (Str × β) :=
  match capPlus cls cont s with
  | some r => some r
  | none => (cont s).map (fun b => (([] : Str), b))

/-- Try a position matcher at every start position, leftmost first —
the JS regex scan. -/
def scanFor (m : Str → Option α) : Str → Option α
  | [] => m []
  | c :: t =>
    match m (c :: t) with
    | some a => some a
    | none => scanFor m t

/-- The negative lookahead `(?!\s*['"'])`: zero-width, succeeds unless the
next character after optional whitespace is a quote. -/
def notQuoteAhead (s : Str) : Option Str :=
  match s.dropWhile wsChar with
  | [] => some s
  | c :: _ => if quoteCh c then none else some s

/-- End-of-input anchor `$` (after `\s*` this is `\s*$`). -/
def wsEnd (s : Str) : Option Str :=
  match s.dropWhile wsChar with
  | [] => some (s.dropWhile wsChar)
  | _ :: _ => none

/-! ### Data model (dsl-generator.ts lines 314-353) -/

/-- `TestStep.locator` (and assertion locator): all fields optional, the
discriminants are the JS string values themselves. -/
structure Locator where
  type : Option Str := none
  value : Option Str := none
  role : Option Str := none
  name : Option Str := none
deriving DecidableEq

/-- `TestStep.assertion`. -/
structure Assertion where
  type : Str
  locator : Option Locator := none
  value : Option Str := none
deriving DecidableEq

/-- `TestStep`: a tagged record whose `action` is one of
`goto`, `fill`, `click`, `assert`. -/
structure TestStep where
  action : Str
  path : Option Str := none
  locator : Option Locator := none
  text : Option Str := none
  assertion : Option Assertion := none
deriving DecidableEq

/-- `TestCase.meta`. -/
structure TestMeta where
  name : Str
  baseUrl : Str
  description : Option Str := none
  tags : Option (List Str) := none
deriving DecidableEq

/-- `TestCase`. -/
structure TestCase where
  meta : TestMeta
  steps : List TestStep
deriving DecidableEq

/-- `GenerationOptions` (only `includeNavigation`, `generateAssertions` and
`testData` are read by `generateTestCase`). -/
structure GenerationOptions where
  includeNavigation : Option Bool := none
  defaultTimeout : Option Nat := none
  includeScreenshots : Option Bool := none
  generateAssertions : Option Bool := none
  testData : Option (List (Str × Str)) := none
  baseUrl : Option Str := none
deriving DecidableEq

/-! ### Shared keyword matchers -/

/-- `(?:login|signin|log\s+in)` — the alternatives are mutually exclusive at
any position, so committing to the first that matches is the JS behaviour. -/
def loginKw (s : Str) : Option Str :=
  litCI (str ("login")) s <|> litCI (str ("signin")) s <|>
    (do
      let s1 ← litCI (str ("log")) s
      let s2 ← ws1 s1
      litCI (str ("in")) s2)

/-- `(?:login|signin|log\s*in)` (the click patterns use `\s*`). -/
def loginKw0 (s : Str) : Option Str :=
  litCI (str ("login")) s <|> litCI (str ("signin")) s <|>
    (do
      let s1 ← litCI (str ("log")) s
      litCI (str ("in")) (ws0 s1))

/-- `try\s+to\s+` — the optional prefix of several patterns. -/
def tryTo (s : Str) : Option Str := do
  let s1 ← litCI (str ("try")) s
  let s2 ← ws1 s1
  let s3 ← litCI (str ("to")) s2
  ws1 s3

/-- `the\s+` — used as the pre of an optional group `(?:the\s+)?`. -/
def theSp (s : Str) : Option Str := do
  let s1 ← litCI (str ("the")) s
  ws1 s1

/-- `on\s+` — used as the pre of `(?:on\s+)?`. -/
def onSp (s : Str) : Option Str := do
  let s1 ← litCI (str ("on")) s
  ws1 s1

/-- `an?\s+` — used as the pre of `(?:an?\s+)?`; the optional `n` commits
greedily, backtracking handled by `optThen`. -/
def anSp (s : Str) : Option Str := do
  let s1 ← litCI (str ("a")) s
  optThen (litCI (str ("n"))) ws1 s1

/-- A committed captured `(cred+)` at the end of a pattern. -/
def credCap1 (s : Str) : Option Str :=
  let cap := s.takeWhile credChar
  if cap.isEmpty then none else some cap

/-- `['"']([^'"]+)['"']` — a quoted capture; the capture class excludes
quotes, so the greedy run cannot rob the closing quote and backtracking
inside `capPlus` is vacuous here. Returns (capture, rest). -/
def quotedCap (s : Str) : Option (Str × Str) := do
  let s1 ← oneOf quoteCh s
  capPlus notQuote (oneOf quoteCh) s1

/-- `https?:\/\/` — consumes the scheme, returns the rest.  The optional
`s` commits; if it were given back the following `:` could not match an
`s`, so this is the JS result. -/
def httpsSlashes (s : Str) : Option Str := do
  let s1 ← litCI (str ("http")) s
  let s2 := match litCI (str ("s")) s1 with
    | some r => r
    | none => s1
  litCI (str ("://")) s2

/-! ### extractExactValues (dsl-generator.ts lines 528-601) -/

/-- `/(?:login|signin|log\s+in)\s+with\s+username\s+([A-Za-z0-9_@.-]+)/i` -/
def xu1At (s : Str) : Option Str := do
  let s1 ← loginKw s
  let s2 ← ws1 s1
  let s3 ← litCI (str ("with")) s2
  let s4 ← ws1 s3
  let s5 ← litCI (str ("username")) s4
  let s6 ← ws1 s5
  credCap1 s6

/-- `/(?:login|signin|log\s+in)\s+with\s+user\s+([A-Za-z0-9_@.-]+)/i` -/
def xu2At (s : Str) : Option Str := do
  let s1 ← loginKw s
  let s2 ← ws1 s1
  let s3 ← litCI (str ("with")) s2
  let s4 ← ws1 s3
  let s5 ← litCI (str ("user")) s4
  let s6 ← ws1 s5
  credCap1 s6

/-- `/(?:login|signin|log\s+in)\s+using\s+([A-Za-z0-9_@.-]+)/i` -/
def xu3At (s : Str) : Option Str := do
  let s1 ← loginKw s
  let s2 ← ws1 s1
  let s3 ← litCI (str ("using")) s2
  let s4 ← ws1 s3
  credCap1 s4

/-- `/(?:login|signin|log\s+in)\s+as\s+([A-Za-z0-9_@.-]+)/i` -/
def xu4At (s : Str) : Option Str := do
  let s1 ← loginKw s
  let s2 ← ws1 s1
  let s3 ← litCI (str ("as")) s2
  let s4 ← ws1 s3
  credCap1 s4

/-- `/username\s+([A-Za-z0-9_@.-]+)(?!\s*['"'])/i` -/
def xu5At (s : Str) : Option Str := do
  let s1 ← litCI (str ("username")) s
  let s2 ← ws1 s1
  let (cap, _) ← capPlus credChar notQuoteAhead s2
  some cap

/-- `/user\s+([A-Za-z0-9_@.-]+)(?!\s*['"'])/i` -/
def xu6At (s : Str) : Option Str := do
  let s1 ← litCI (str ("user")) s
  let s2 ← ws1 s1
  let (cap, _) ← capPlus credChar notQuoteAhead s2
  some cap

/-- `/username\s+['"']([^'"]+)['"']/i` -/
def xu7At (s : Str) : Option Str := do
  let s1 ← litCI (str ("username")) s
  let s2 ← ws1 s1
  let (cap, _) ← quotedCap s2
  some cap

/-- `/user\s+['"']([^'"]+)['"']/i` -/
def xu8At (s : Str) : Option Str := do
  let s1 ← litCI (str ("user")) s
  let s2 ← ws1 s1
  let (cap, _) ← quotedCap s2
  some cap

/-- `/set\s+username\s+to\s+([A-Za-z0-9_@.-]+)/i` -/
def xu9At (s : Str) : Option Str := do
  let s1 ← litCI (str ("set")) s
  let s2 ← ws1 s1
  let s3 ← litCI (str ("username")) s2
  let s4 ← ws1 s3
  let s5 ← litCI (str ("to")) s4
  let s6 ← ws1 s5
  credCap1 s6

/-- `/use\s+username\s+([A-Za-z0-9_@.-]+)/i` -/
def xu10At (s : Str) : Option Str := do
  let s1 ← litCI (str ("use")) s
  let s2 ← ws1 s1
  let s3 ← litCI (str ("username")) s2
  let s4 ← ws1 s3
  credCap1 s4

/-- `/enter\s+username\s+([A-Za-z0-9_@.-]+)/i` -/
def xu11At (s : Str) : Option Str := do
  let s1 ← litCI (str ("enter")) s
  let s2 ← ws1 s1
  let s3 ← litCI (str ("username")) s2
  let s4 ← ws1 s3
  credCap1 s4

/-- `/and\s+password\s+([A-Za-z0-9_@.-]+)(?!\s*['"'])/i` -/
def xp1At (s : Str) : Option Str := do
  let s1 ← litCI (str ("and")) s
  let s2 ← ws1 s1
  let s3 ← litCI (str ("password")) s2
  let s4 ← ws1 s3
  let (cap, _) ← capPlus credChar notQuoteAhead s4
  some cap

/-- `/with\s+password\s+([A-Za-z0-9_@.-]+)(?!\s*['"'])/i` -/
def xp2At (s : Str) : Option Str := do
  let s1 ← litCI (str ("with")) s
  let s2 ← ws1 s1
  let s3 ← litCI (str ("password")) s2
  let s4 ← ws1 s3
  let (cap, _) ← capPlus credChar notQuoteAhead s4
  some cap

/-- `/password\s+([A-Za-z0-9_@.-]+)(?!\s*['"'])/i` -/
def xp3At (s : Str) : Option Str := do
  let s1 ← litCI (str ("password")) s
  let s2 ← ws1 s1
  let (cap, _) ← capPlus credChar notQuoteAhead s2
  some cap

/-- `/pass\s+([A-Za-z0-9_@.-]+)(?!\s*['"'])/i` -/
def xp4At (s : Str) : Option Str := do
  let s1 ← litCI (str ("pass")) s
  let s2 ← ws1 s1
  let (cap, _) ← capPlus credChar notQuoteAhead s2
  some cap

/-- `/password\s+['"']([^'"]+)['"']/i` -/
def xp5At (s : Str) : Option Str := do
  let s1 ← litCI (str ("password")) s
  let s2 ← ws1 s1
  let (cap, _) ← quotedCap s2
  some cap

/-- `/pass\s+['"']([^'"]+)['"']/i` -/
def xp6At (s : Str) : Option Str := do
  let s1 ← litCI (str ("pass")) s
  let s2 ← ws1 s1
  let (cap, _) ← quotedCap s2
  some cap

/-- `/set\s+password\s+to\s+([A-Za-z0-9_@.-]+)/i` -/
def xp7At (s : Str) : Option Str := do
  let s1 ← litCI (str ("set")) s
  let s2 ← ws1 s1
  let s3 ← litCI (str ("password")) s2
  let s4 ← ws1 s3
  let s5 ← litCI (str ("to")) s4
  let s6 ← ws1 s5
  credCap1 s6

/-- `/use\s+password\s+([A-Za-z0-9_@.-]+)/i` -/
def xp8At (s : Str) : Option Str := do
  let s1 ← litCI (str ("use")) s
  let s2 ← ws1 s1
  let s3 ← litCI (str ("password")) s2
  let s4 ← ws1 s3
  credCap1 s4

/-- `/enter\s+password\s+([A-Za-z0-9_@.-]+)/i` -/
def xp9At (s : Str) : Option Str := do
  let s1 ← litCI (str ("enter")) s
  let s2 ← ws1 s1
  let s3 ← litCI (str ("password")) s2
  let s4 ← ws1 s3
  credCap1 s4

/-- The email body `([A-Za-z0-9._%+-]+@[A-Za-z0-9.-]+\.[A-Za-z]{2,})`.
The local part commits (`@` is not in its class); the domain run backtracks
to find the final `.` followed by at least two letters.  Returns
(capture, rest). -/
def emailCore (s : Str) : Option (Str × Str) :=
  let locPart := s.takeWhile emailLocalChar
  if locPart.isEmpty then none
  else
    match oneOf (fun c => c = '@') (s.dropWhile emailLocalChar) with
    | none => none
    | some s1 =>
      match capPlus emailDomChar (fun r => do
          let r1 ← oneOf (fun c => c = '.') r
          let al := r1.takeWhile alphaChar
          if al.length < 2 then none
          else some (al, r1.dropWhile alphaChar)) s1 with
      | none => none
      | some (dom, (al, rest)) =>
        some (locPart ++ '@' :: dom ++ '.' :: al, rest)

/-- `/email\s+['"']?([A-Za-z0-9._%+-]+@...)['"']?/i` -/
def xe1At (s : Str) : Option Str := do
  let s1 ← litCI (str ("email")) s
  let s2 ← ws1 s1
  optThen (oneOf quoteCh) (fun s3 => (emailCore s3).map Prod.fst) s2

/-- `/with\s+email\s+([A-Za-z0-9._%+-]+@...)/i` -/
def xe2At (s : Str) : Option Str := do
  let s1 ← litCI (str ("with")) s
  let s2 ← ws1 s1
  let s3 ← litCI (str ("email")) s2
  let s4 ← ws1 s3
  (emailCore s4).map Prod.fst

/-- `/using\s+email\s+([A-Za-z0-9._%+-]+@...)/i` -/
def xe3At (s : Str) : Option Str := do
  let s1 ← litCI (str ("using")) s
  let s2 ← ws1 s1
  let s3 ← litCI (str ("email")) s2
  let s4 ← ws1 s3
  (emailCore s4).map Prod.fst

/-- The `Record<string, string>` built by `extractExactValues`. -/
structure ExactValues where
  username : Option Str := none
  password : Option Str := none
  email : Option Str := none
deriving DecidableEq

/-- Record lookup `exactValues[fieldName]`. -/
def ExactValues.get (e : ExactValues) (k : Str) : Option Str :=
  if k = str ("username") then e.username
  else if k = str ("password") then e.password
  else if k = str ("email") then e.email
  else none

/-- The per-field extraction loop shared by `extractExactValues` and
`extractAllValues`: first pattern with a (truthy) capture wins; the stored
value is trimmed (`match[1].trim()`). -/
def firstCap : List (Str → Option Str) → Str → Option Str
  | [], _ => none
  | m :: ms, d =>
    match scanFor m d with
    | some cap => if cap.isEmpty then firstCap ms d else some (jsTrim cap)
    | none => firstCap ms d

/-- `extractExactValues` (dsl-generator.ts lines 528-601). -/
def extractExactValues (description : Str) : ExactValues :=
  { username := firstCap [xu1At, xu2At, xu3At, xu4At, xu5At, xu6At, xu7At,
      xu8At, xu9At, xu10At, xu11At] description
    password := firstCap [xp1At, xp2At, xp3At, xp4At, xp5At, xp6At, xp7At,
      xp8At, xp9At] description
    email := firstCap [xe1At, xe2At, xe3At] description }

/-! ### parseFormInteractions (dsl-generator.ts lines 449-522)

Each form pattern matcher returns the pair of groups
`(match[1], match[2])`; a pattern without a second group returns `none`
there, and a pattern whose group 1 may capture the empty string returns
that empty capture. -/

/-- Form pattern 1:
`/(?:try\s+to\s+)?(?:login|signin|log\s+in)\s+with\s+username\s+([A-Za-z0-9_@.-]+)(?:\s+and\s+password\s+([A-Za-z0-9_@.-]+))?/i`.
Group 1 commits to the maximal run: on any shorter candidate the following
`\s+` of the optional group meets a credential character and fails, and the
optional group then also matches by being absent, so the JS engine keeps the
greedy maximum. -/
def f1Tail (s : Str) : Option Str := do
  let s1 ← ws1 s
  let s2 ← litCI (str ("and")) s1
  let s3 ← ws1 s2
  let s4 ← litCI (str ("password")) s3
  let s5 ← ws1 s4
  credCap1 s5

/-- The shared shape of the first four form patterns after their literal
prefix: a greedy committed `([A-Za-z0-9_@.-]+)` capture followed by an
optional second-capture tail. -/
def credCapTail (tail : Str → Option Str) (s : Str) :
    Option (Str × Option Str) :=
  if (s.takeWhile credChar).isEmpty then none
  else
    match tail (s.dropWhile credChar) with
    | some cap2 => some (s.takeWhile credChar, some cap2)
    | none => some (s.takeWhile credChar, none)

def f1At (s : Str) : Option (Str × Option Str) :=
  optThen tryTo (fun s0 => do
    let s1 ← loginKw s0
    let s2 ← ws1 s1
    let s3 ← litCI (str ("with")) s2
    let s4 ← ws1 s3
    let s5 ← litCI (str ("username")) s4
    let s6 ← ws1 s5
    credCapTail f1Tail s6) s

/-- Form pattern 2: as pattern 1 with `user` in place of `username`. -/
def f2At (s : Str) : Option (Str × Option Str) :=
  optThen tryTo (fun s0 => do
    let s1 ← loginKw s0
    let s2 ← ws1 s1
    let s3 ← litCI (str ("with")) s2
    let s4 ← ws1 s3
    let s5 ← litCI (str ("user")) s4
    let s6 ← ws1 s5
    credCapTail f1Tail s6) s

/-- Form pattern 3:
`/(?:try\s+to\s+)?(?:login|signin|log\s+in)\s+using\s+([A-Za-z0-9_@.-]+)(?:\s+and\s+([A-Za-z0-9_@.-]+))?/i` -/
def f3Tail (s : Str) : Option Str := do
  let s1 ← ws1 s
  let s2 ← litCI (str ("and")) s1
  let s3 ← ws1 s2
  credCap1 s3

def f3At (s : Str) : Option (Str × Option Str) :=
  optThen tryTo (fun s0 => do
    let s1 ← loginKw s0
    let s2 ← ws1 s1
    let s3 ← litCI (str ("using")) s2
    let s4 ← ws1 s3
    credCapTail f3Tail s4) s

/-- Form pattern 4:
`/(?:try\s+to\s+)?(?:login|signin|log\s+in)\s+as\s+([A-Za-z0-9_@.-]+)(?:\s+with\s+password\s+([A-Za-z0-9_@.-]+))?/i` -/
def f4Tail (s : Str) : Option Str := do
  let s1 ← ws1 s
  let s2 ← litCI (str ("with")) s1
  let s3 ← ws1 s2
  let s4 ← litCI (str ("password")) s3
  let s5 ← ws1 s4
  credCap1 s5

def f4At (s : Str) : Option (Str × Option Str) :=
  optThen tryTo (fun s0 => do
    let s1 ← loginKw s0
    let s2 ← ws1 s1
    let s3 ← litCI (str ("as")) s2
    let s4 ← ws1 s3
    credCapTail f4Tail s4) s

/-- Form pattern 5:
`/username\s+['"']([^'"]+)['"'](?:\s+and\s+password\s+['"']([^'"]+)['"'])?/i` -/
def f5Tail (s : Str) : Option Str := do
  let s1 ← ws1 s
  let s2 ← litCI (str ("and")) s1
  let s3 ← ws1 s2
  let s4 ← litCI (str ("password")) s3
  let s5 ← ws1 s4
  let (cap2, _) ← quotedCap s5
  some cap2

def f5At (s : Str) : Option (Str × Option Str) := do
  let s1 ← litCI (str ("username")) s
  let s2 ← ws1 s1
  let (cap1, r) ← quotedCap s2
  match f5Tail r with
  | some cap2 => some (cap1, some cap2)
  | none => some (cap1, none)

/-- Form pattern 6: as pattern 5 with `user`. -/
def f6At (s : Str) : Option (Str × Option Str) := do
  let s1 ← litCI (str ("user")) s
  let s2 ← ws1 s1
  let (cap1, r) ← quotedCap s2
  match f5Tail r with
  | some cap2 => some (cap1, some cap2)
  | none => some (cap1, none)

/-- Form pattern 7:
`/login\s+with\s+['"']([^'"]+)['"'](?:\s+and\s+['"']([^'"]+)['"'])?/i` -/
def f7Tail (s : Str) : Option Str := do
  let s1 ← ws1 s
  let s2 ← litCI (str ("and")) s1
  let s3 ← ws1 s2
  let (cap2, _) ← quotedCap s3
  some cap2

def f7At (s : Str) : Option (Str × Option Str) := do
  let s1 ← litCI (str ("login")) s
  let s2 ← ws1 s1
  let s3 ← litCI (str ("with")) s2
  let s4 ← ws1 s3
  let (cap1, r) ← quotedCap s4
  match f7Tail r with
  | some cap2 => some (cap1, some cap2)
  | none => some (cap1, none)

/-- `(?:enter|fill|type|input)` — distinct first letters, committed. -/
def enterKw (s : Str) : Option Str :=
  litCI (str ("enter")) s <|> litCI (str ("fill")) s <|>
    litCI (str ("type")) s <|> litCI (str ("input")) s

/-- `(?:username|user\s*name)` — when both alternatives match they consume
the same characters, so committing to the first is the JS behaviour. -/
def userFieldKw (s : Str) : Option Str :=
  litCI (str ("username")) s <|>
    (do
      let s1 ← litCI (str ("user")) s
      litCI (str ("name")) (ws0 s1))

/-- `(?:password|pass)` — the continuation of these patterns never fails,
so the longer first alternative is kept. -/
def passFieldKw (s : Str) : Option Str :=
  litCI (str ("password")) s <|> litCI (str ("pass")) s

/-- `(?:email|e-mail)`. -/
def emailFieldKw (s : Str) : Option Str :=
  litCI (str ("email")) s <|> litCI (str ("e-mail")) s

/-- `(?:name|full\s*name)`. -/
def nameFieldKw (s : Str) : Option Str :=
  litCI (str ("name")) s <|>
    (do
      let s1 ← litCI (str ("full")) s
      litCI (str ("name")) (ws0 s1))

/-- `(?:phone|telephone)`. -/
def phoneFieldKw (s : Str) : Option Str :=
  litCI (str ("phone")) s <|> litCI (str ("telephone")) s

/-- `(?:with\s*|as\s*)` — the pre of the optional group in the generic form
patterns. -/
def withAs (s : Str) : Option Str :=
  (do
    let s1 ← litCI (str ("with")) s
    some (ws0 s1)) <|>
  (do
    let s1 ← litCI (str ("as")) s
    some (ws0 s1))

/-- The generic-pattern tail `\s*(?:with\s*|as\s*)?['"']?([^'"]*)['"']?`:
every component after the capture is optional, so the capture commits to
the greedy maximum and the match never fails. -/
def fillTail (s : Str) : Option Str :=
  optThen withAs
    (fun s1 =>
      optThen (oneOf quoteCh)
        (fun s2 => (capStar notQuote (fun _ => some ()) s2).map Prod.fst)
        s1)
    (ws0 s)

/-- Form pattern 8:
`/(?:enter|fill|type|input)\s+(?:username|user\s*name)\s*(?:with\s*|as\s*)?['"']?([^'"]*)['"']?/i` -/
def f8At (s : Str) : Option (Str × Option Str) := do
  let s1 ← enterKw s
  let s2 ← ws1 s1
  let s3 ← userFieldKw s2
  let cap ← fillTail s3
  some (cap, none)

/-- Form pattern 9: the `(?:password|pass)` variant of pattern 8. -/
def f9At (s : Str) : Option (Str × Option Str) := do
  let s1 ← enterKw s
  let s2 ← ws1 s1
  let s3 ← passFieldKw s2
  let cap ← fillTail s3
  some (cap, none)

/-- Form pattern 10: the `(?:email|e-mail)` variant of pattern 8. -/
def f10At (s : Str) : Option (Str × Option Str) := do
  let s1 ← enterKw s
  let s2 ← ws1 s1
  let s3 ← emailFieldKw s2
  let cap ← fillTail s3
  some (cap, none)

/-- Form pattern 11: the `(?:name|full\s*name)` variant of pattern 8. -/
def f11At (s : Str) : Option (Str × Option Str) := do
  let s1 ← enterKw s
  let s2 ← ws1 s1
  let s3 ← nameFieldKw s2
  let cap ← fillTail s3
  some (cap, none)

/-- Form pattern 12: the `(?:phone|telephone)` variant of pattern 8. -/
def f12At (s : Str) : Option (Str × Option Str) := do
  let s1 ← enterKw s
  let s2 ← ws1 s1
  let s3 ← phoneFieldKw s2
  let cap ← fillTail s3
  some (cap, none)

/-- Form pattern 13: `/set\s+username\s+to\s+([A-Za-z0-9_@.-]+)/i` -/
def f13At (s : Str) : Option (Str × Option Str) :=
  (xu9At s).map (fun cap => (cap, none))

/-- Form pattern 14: `/set\s+password\s+to\s+([A-Za-z0-9_@.-]+)/i` -/
def f14At (s : Str) : Option (Str × Option Str) :=
  (xp7At s).map (fun cap => (cap, none))

/-- Form pattern 15: `/use\s+username\s+([A-Za-z0-9_@.-]+)/i` -/
def f15At (s : Str) : Option (Str × Option Str) :=
  (xu10At s).map (fun cap => (cap, none))

/-- Form pattern 16: `/use\s+password\s+([A-Za-z0-9_@.-]+)/i` -/
def f16At (s : Str) : Option (Str × Option Str) :=
  (xp8At s).map (fun cap => (cap, none))

/-- The ordered form-pattern table with its field lists
(dsl-generator.ts lines 453-477). -/
def formPatterns : List ((Str → Option (Str × Option Str)) × List Str) :=
  [(f1At, [str ("username"), str ("password")]),
   (f2At, [str ("username"), str ("password")]),
   (f3At, [str ("username"), str ("password")]),
   (f4At, [str ("username"), str ("password")]),
   (f5At, [str ("username"), str ("password")]),
   (f6At, [str ("username"), str ("password")]),
   (f7At, [str ("username"), str ("password")]),
   (f8At, [str ("username")]),
   (f9At, [str ("password")]),
   (f10At, [str ("email")]),
   (f11At, [str ("name")]),
   (f12At, [str ("phone")]),
   (f13At, [str ("username")]),
   (f14At, [str ("password")]),
   (f15At, [str ("username")]),
   (f16At, [str ("password")])]

/-- A fill step `{ action: "fill", locator: { type: "label", value:
capitalizeFirst(fieldName) }, text }` as pushed by
`parseFormInteractions`. -/
def mkFillStep (fieldName text : Str) : TestStep :=
  { action := str ("fill"),
    locator := some { type := some (str ("label")),
                      value := some (capitalizeFirst fieldName) },
    text := some text }

/-- The fallback of the `fields.forEach` body when the pattern group is
missing or empty (dsl-generator.ts lines 495-516):
`const exactValue = exactValues[fieldName]; if (exactValue) ... else ...`.
The `if (exactValue)` is a JS truthiness test, so a present but empty
extracted value also falls through to the TODO marker. -/
def formFallbackStep (exact : ExactValues) (fieldName : Str) : TestStep :=
  match exact.get fieldName with
  | some ev =>
    if ev.isEmpty then
      mkFillStep fieldName
        (str ("// TODO: Specify ") ++ fieldName ++ str (" value"))
    else mkFillStep fieldName ev
  | none =>
    mkFillStep fieldName
      (str ("// TODO: Specify ") ++ fieldName ++ str (" value"))

/-- The `fields.forEach` body of `parseFormInteractions` (lines 482-518):
a present, non-empty trimmed group gives a fill with the exact value;
otherwise the truthy `extractExactValues` result for the field, or the
`// TODO: Specify <field> value` marker. -/
def formFieldStep (exact : ExactValues) (caps : Str × Option Str)
    (idx : Nat) (fieldName : Str) : TestStep :=
  let group : Option Str :=
    match idx with
    | 0 => some caps.1
    | 1 => caps.2
    | _ => none
  let value := group.map jsTrim
  match value with
  | some v =>
    if v.isEmpty then formFallbackStep exact fieldName
    else mkFillStep fieldName v
  | none => formFallbackStep exact fieldName

/-- The pattern loop of `parseFormInteractions`: the first pattern that
matches anywhere in the description produces the fill steps, then the loop
breaks. -/
def formLoop (exact : ExactValues) :
    List ((Str → Option (Str × Option Str)) × List Str) → Str →
    List TestStep
  | [], _ => []
  | (m, fields) :: rest, d =>
    match scanFor m d with
    | some caps => fields.enum.map (fun p => formFieldStep exact caps p.1 p.2)
    | none => formLoop exact rest d

/-- `parseFormInteractions` (dsl-generator.ts lines 449-522).  The
`testData` parameter of the source function is accepted but never read by
its body. -/
def parseFormInteractions (description : Str)
    (testData : Option (List (Str × Str))) : List TestStep :=
  let _ := testData
  formLoop (extractExactValues description) formPatterns description

/-! ### parseClickActions (dsl-generator.ts lines 603-633) -/

/-- `(?:click|press|tap|hit)`. -/
def clickVerb (s : Str) : Option Str :=
  litCI (str ("click")) s <|> litCI (str ("press")) s <|>
    litCI (str ("tap")) s <|> litCI (str ("hit")) s

/-- The trailing `\s*(?:button)?` of the click patterns: always succeeds. -/
def buttonTrailer (s : Str) : Str :=
  let s1 := ws0 s
  match litCI (str ("button")) s1 with
  | some r => r
  | none => s1

/-- Click pattern 1:
`/(?:click|press|tap|hit)\s+(?:on\s+)?(?:the\s+)?(?:login|signin|log\s*in)\s*(?:button)?/i` -/
def c1At (s : Str) : Option (Option Str) := do
  let s1 ← clickVerb s
  let s2 ← ws1 s1
  optThen onSp (fun s3 =>
    optThen theSp (fun s4 => do
      let s5 ← loginKw0 s4
      let _ := buttonTrailer s5
      some none) s3) s2

/-- `(?:submit|send)`. -/
def submitKw (s : Str) : Option Str :=
  litCI (str ("submit")) s <|> litCI (str ("send")) s

/-- Click pattern 2: `/(?:submit|send)\s+(?:the\s+)?(?:login|signin)\s*(?:form)?/i` -/
def c2At (s : Str) : Option (Option Str) := do
  let s1 ← submitKw s
  let s2 ← ws1 s1
  optThen theSp (fun s3 => do
    let s4 ← (litCI (str ("login")) s3 <|> litCI (str ("signin")) s3)
    let s5 := ws0 s4
    let _ := match litCI (str ("form")) s5 with
      | some r => r
      | none => s5
    some none) s2

/-- `(?:register|signup|sign\s*up)`. -/
def registerKw (s : Str) : Option Str :=
  litCI (str ("register")) s <|> litCI (str ("signup")) s <|>
    (do
      let s1 ← litCI (str ("sign")) s
      litCI (str ("up")) (ws0 s1))

/-- Click pattern 3:
`/(?:click|press|tap|hit)\s+(?:on\s+)?(?:the\s+)?(?:register|signup|sign\s*up)\s*(?:button)?/i` -/
def c3At (s : Str) : Option (Option Str) := do
  let s1 ← clickVerb s
  let s2 ← ws1 s1
  optThen onSp (fun s3 =>
    optThen theSp (fun s4 => do
      let s5 ← registerKw s4
      let _ := buttonTrailer s5
      some none) s3) s2

/-- Click pattern 4:
`/(?:click|press|tap|hit)\s+(?:on\s+)?(?:the\s+)?(?:submit|send)\s*(?:button)?/i` -/
def c4At (s : Str) : Option (Option Str) := do
  let s1 ← clickVerb s
  let s2 ← ws1 s1
  optThen onSp (fun s3 =>
    optThen theSp (fun s4 => do
      let s5 ← submitKw s4
      let _ := buttonTrailer s5
      some none) s3) s2

/-- Click pattern 5:
`/(?:click|press|tap|hit)\s+(?:on\s+)?(?:the\s+)?(?:save|update)\s*(?:button)?/i` -/
def c5At (s : Str) : Option (Option Str) := do
  let s1 ← clickVerb s
  let s2 ← ws1 s1
  optThen onSp (fun s3 =>
    optThen theSp (fun s4 => do
      let s5 ← (litCI (str ("save")) s4 <|> litCI (str ("update")) s4)
      let _ := buttonTrailer s5
      some none) s3) s2

/-- Click pattern 6:
`/(?:click|press|tap|hit)\s+(?:on\s+)?(?:the\s+)?(?:cancel|close)\s*(?:button)?/i` -/
def c6At (s : Str) : Option (Option Str) := do
  let s1 ← clickVerb s
  let s2 ← ws1 s1
  optThen onSp (fun s3 =>
    optThen theSp (fun s4 => do
      let s5 ← (litCI (str ("cancel")) s4 <|> litCI (str ("close")) s4)
      let _ := buttonTrailer s5
      some none) s3) s2

/-- Click pattern 7:
`/(?:click|press|tap|hit)\s+(?:on\s+)?(?:the\s+)?['"']([^'"]+)['"']/i` -/
def c7At (s : Str) : Option (Option Str) := do
  let s1 ← clickVerb s
  let s2 ← ws1 s1
  optThen onSp (fun s3 =>
    optThen theSp (fun s4 => do
      let (cap, _) ← quotedCap s4
      some (some cap)) s3) s2

/-- Click pattern 8:
`/(?:click|press|tap|hit)\s+(?:on\s+)?(?:the\s+)?(\w+)\s*(?:button)?/i` -/
def c8At (s : Str) : Option (Option Str) := do
  let s1 ← clickVerb s
  let s2 ← ws1 s1
  optThen onSp (fun s3 =>
    optThen theSp (fun s4 =>
      let cap := s4.takeWhile wordChar
      if cap.isEmpty then none
      else
        let _ := buttonTrailer (s4.dropWhile wordChar)
        some (some cap)) s3) s2

/-- The ordered click-pattern table with the `element` column
(dsl-generator.ts lines 604-620). -/
def clickPatterns : List ((Str → Option (Option Str)) × Option Str) :=
  [(c1At, some (str ("Login"))),
   (c2At, some (str ("Login"))),
   (c3At, some (str ("Register"))),
   (c4At, some (str ("Submit"))),
   (c5At, some (str ("Save"))),
   (c6At, some (str ("Cancel"))),
   (c7At, none),
   (c8At, none)]

/-- The click-pattern loop: first match wins
(`const buttonText = element || match[1]`), one click step, break. -/
def clickLoop : List ((Str → Option (Option Str)) × Option Str) → Str →
    List TestStep
  | [], _ => []
  | (m, el) :: rest, d =>
    match scanFor m d with
    | some cap =>
      let buttonText :=
        match el with
        | some e => e
        | none => (cap.getD [])
      [{ action := str ("click"),
         locator := some { type := some (str ("role")),
                           role := some (str ("button")),
                           name := some buttonText } }]
    | none => clickLoop rest d

/-- `parseClickActions` (dsl-generator.ts lines 603-633). -/
def parseClickActions (description : Str) : List TestStep :=
  clickLoop clickPatterns description

/-! ### parseAssertions (dsl-generator.ts lines 635-713) -/

/-- `(?:shows?|displays?|contains?|see)` — the optional `s` commits: if it
is handed back, the following `\s+` meets that `s` and fails anyway. -/
def optS (s : Str) : Str :=
  match litCI (str ("s")) s with
  | some r => r
  | none => s

def showsKw (s : Str) : Option Str :=
  (litCI (str ("show")) s).map optS <|>
    (litCI (str ("display")) s).map optS <|>
    (litCI (str ("contain")) s).map optS <|>
    litCI (str ("see")) s

/-- `(?:error|warning|failure)`. -/
def errKw (s : Str) : Option Str :=
  litCI (str ("error")) s <|> litCI (str ("warning")) s <|>
    litCI (str ("failure")) s

/-- Assertion pattern 1:
`/(?:shows?|displays?|contains?|see)\s+(?:an?\s+)?(?:error|warning|failure)\s*(?:message)?/i` -/
def a1At (s : Str) : Option Unit := do
  let s1 ← showsKw s
  let s2 ← ws1 s1
  optThen anSp (fun s3 => (errKw s3).map (fun _ => ())) s2

/-- `(?:expect|should\s+see)`. -/
def expectKw (s : Str) : Option Str :=
  litCI (str ("expect")) s <|>
    (do
      let s1 ← litCI (str ("should")) s
      let s2 ← ws1 s1
      litCI (str ("see")) s2)

/-- Assertion pattern 2: `/(?:expect|should\s+see)\s+(?:an?\s+)?error/i` -/
def a2At (s : Str) : Option Unit := do
  let s1 ← expectKw s
  let s2 ← ws1 s1
  optThen anSp (fun s3 => (litCI (str ("error")) s3).map (fun _ => ())) s2

/-- `(?:redirect|navigate|go|taken)`. -/
def redirectKw (s : Str) : Option Str :=
  litCI (str ("redirect")) s <|> litCI (str ("navigate")) s <|>
    litCI (str ("go")) s <|> litCI (str ("taken")) s

/-- Assertion pattern 3:
`/(?:redirect|navigate|go|taken)\s+to\s+(?:the\s+)?dashboard/i` -/
def a3At (s : Str) : Option Unit := do
  let s1 ← redirectKw s
  let s2 ← ws1 s1
  let s3 ← litCI (str ("to")) s2
  let s4 ← ws1 s3
  optThen theSp (fun s5 => (litCI (str ("dashboard")) s5).map (fun _ => ())) s4

/-- Assertion pattern 4:
`/(?:redirect|navigate|go|taken)\s+to\s+(?:the\s+)?home/i` -/
def a4At (s : Str) : Option Unit := do
  let s1 ← redirectKw s
  let s2 ← ws1 s1
  let s3 ← litCI (str ("to")) s2
  let s4 ← ws1 s3
  optThen theSp (fun s5 => (litCI (str ("home")) s5).map (fun _ => ())) s4

/-- The common tail of assertion pattern 5. -/
def a5Tail (s : Str) : Option Unit := do
  let s1 ← ws1 s
  optThen theSp (fun s2 => (litCI (str ("dashboard")) s2).map (fun _ => ())) s1

/-- Assertion pattern 5: `/(?:see|sees)\s+(?:the\s+)?dashboard/i` —
alternatives tried in order with the full continuation, as JS does. -/
def a5At (s : Str) : Option Unit :=
  (do
    let s1 ← litCI (str ("see")) s
    a5Tail s1) <|>
  (do
    let s1 ← litCI (str ("sees")) s
    a5Tail s1)

/-- Assertion pattern 6: `/(?:success|successful|succeed)/i` (the second
alternative is shadowed by the first, as in JS). -/
def a6At (s : Str) : Option Unit :=
  (litCI (str ("success")) s).map (fun _ => ()) <|>
    (litCI (str ("successful")) s).map (fun _ => ()) <|>
    (litCI (str ("succeed")) s).map (fun _ => ())

/-- Assertion pattern 7:
`/(?:shows?|displays?|contains?|see)\s+['"']([^'"]+)['"']/i` -/
def a7At (s : Str) : Option Str := do
  let s1 ← showsKw s
  let s2 ← ws1 s1
  let (cap, _) ← quotedCap s2
  some cap

/-- Assertion pattern 8: `/(?:expect|should\s+see)\s+['"']([^'"]+)['"']/i` -/
def a8At (s : Str) : Option Str := do
  let s1 ← expectKw s
  let s2 ← ws1 s1
  let (cap, _) ← quotedCap s2
  some cap

/-- Assertion pattern 9:
`/(?:url|address)\s+(?:contains?|includes?)\s+['"']([^'"]+)['"']/i` -/
def a9At (s : Str) : Option Str := do
  let s1 ← (litCI (str ("url")) s <|> litCI (str ("address")) s)
  let s2 ← ws1 s1
  let s3 ← ((litCI (str ("contain")) s2).map optS <|>
            (litCI (str ("include")) s2).map optS)
  let s4 ← ws1 s3
  let (cap, _) ← quotedCap s4
  some cap

/-- An assert step `{ action: "assert", assertion }`. -/
def mkAssert (t : Str) (loc : Option Locator) (v : Option Str) : TestStep :=
  { action := str ("assert"),
    assertion := some { type := t, locator := loc, value := v } }

/-- A `{ type: "css", value: sel }` locator. -/
def cssLoc (sel : Str) : Locator :=
  { type := some (str ("css")), value := some sel }

/-- `parseAssertions` (dsl-generator.ts lines 635-713): the patterns are
tried in order; the first match pushes its assertion (the captured-text
patterns build a `containsText` on `body`, the url pattern a
`urlContains`), then the loop breaks. -/
def parseAssertions (d : Str) : List TestStep :=
  match scanFor a1At d with
  | some _ =>
    [mkAssert (str ("containsText"))
      (some (cssLoc (str ("[role='alert'], .error, .warning, .alert-error"))))
      (some (str ("error")))]
  | none =>
  match scanFor a2At d with
  | some _ =>
    [mkAssert (str ("containsText"))
      (some (cssLoc (str ("[role='alert'], .error, .warning"))))
      (some (str ("error")))]
  | none =>
  match scanFor a3At d with
  | some _ => [mkAssert (str ("urlContains")) none (some (str ("/dashboard")))]
  | none =>
  match scanFor a4At d with
  | some _ => [mkAssert (str ("urlContains")) none (some (str ("/")))]
  | none =>
  match scanFor a5At d with
  | some _ => [mkAssert (str ("urlContains")) none (some (str ("/dashboard")))]
  | none =>
  match scanFor a6At d with
  | some _ =>
    [mkAssert (str ("containsText"))
      (some (cssLoc (str (".success, [role='status'], .alert-success"))))
      (some (str ("success")))]
  | none =>
  match scanFor a7At d with
  | some cap =>
    [mkAssert (str ("containsText")) (some (cssLoc (str ("body")))) (some cap)]
  | none =>
  match scanFor a8At d with
  | some cap =>
    [mkAssert (str ("containsText")) (some (cssLoc (str ("body")))) (some cap)]
  | none =>
  match scanFor a9At d with
  | some cap => [mkAssert (str ("urlContains")) none (some cap)]
  | none => []

/-! ### extractPath (dsl-generator.ts lines 406-447) -/

/-- `(?:go to|navigate to|visit|open)` — note the literal spaces in the
first two alternatives; distinct first letters, committed. -/
def navKw (s : Str) : Option Str :=
  litCI (str ("go to")) s <|> litCI (str ("navigate to")) s <|>
    litCI (str ("visit")) s <|> litCI (str ("open")) s

/-- Path pattern 1:
`/(?:go to|navigate to|visit|open)\s+['"](https?:\/\/[^'"]+)['"]/i`.
The capture preserves the input text of the scheme (`take` on the input);
the `[^'"]+` run cannot contain the closing quote, so it commits. -/
def p1At (s : Str) : Option Str := do
  let s1 ← navKw s
  let s2 ← ws1 s1
  let s3 ← oneOf quoteCh s2
  let s4 ← httpsSlashes s3
  let scheme := s3.take (s3.length - s4.length)
  let (body, _) ← capPlus notQuote (oneOf quoteCh) s4
  some (scheme ++ body)

/-- Path pattern 2:
`/(?:go to|navigate to|visit|open)\s+(https?:\/\/[^\s]+)/i` -/
def p2At (s : Str) : Option Str := do
  let s1 ← navKw s
  let s2 ← ws1 s1
  let s3 ← httpsSlashes s2
  let scheme := s2.take (s2.length - s3.length)
  let body := s3.takeWhile (fun c => !wsChar c)
  if body.isEmpty then none else some (scheme ++ body)

/-- The class `['"\/]`. -/
def quoteSlash (c : Char) : Bool := quoteCh c || c = '/'

/-- Path pattern 3:
`/(?:go to|navigate to|visit|open)\s+['"\/]([^'"]+)['"\/]/i`.
The capture class contains `/`, which is also in the closing class, so the
greedy run genuinely backtracks (`capPlus`). -/
def p3At (s : Str) : Option Str := do
  let s1 ← navKw s
  let s2 ← ws1 s1
  let s3 ← oneOf quoteSlash s2
  let (cap, _) ← capPlus notQuote (oneOf quoteSlash) s3
  some cap

/-- Path pattern 4: `/(?:login|signin)\s+page/i` -/
def p4At (s : Str) : Option Unit := do
  let s1 ← (litCI (str ("login")) s <|> litCI (str ("signin")) s)
  let s2 ← ws1 s1
  (litCI (str ("page")) s2).map (fun _ => ())

/-- Path pattern 5: `/(?:register|signup)\s+page/i` -/
def p5At (s : Str) : Option Unit := do
  let s1 ← (litCI (str ("register")) s <|> litCI (str ("signup")) s)
  let s2 ← ws1 s1
  (litCI (str ("page")) s2).map (fun _ => ())

/-- Path pattern 6: `/(?:dashboard|profile|settings)\s+page/i` -/
def p6At (s : Str) : Option Unit := do
  let s1 ← (litCI (str ("dashboard")) s <|> litCI (str ("profile")) s <|>
            litCI (str ("settings")) s)
  let s2 ← ws1 s1
  (litCI (str ("page")) s2).map (fun _ => ())

/-- Path pattern 7:
`/(?:go to|navigate to|visit|open)\s+(?:the\s+)?(\w+)\s+page/i`.
The `(\w+)` capture commits (handing back a word character makes the
following `\s+` fail); the optional `the\s+` backtracks via `optThen`. -/
def p7At (s : Str) : Option Str := do
  let s1 ← navKw s
  let s2 ← ws1 s1
  optThen theSp (fun s3 => do
    let (cap, _) ← capPlus wordChar (fun r => do
        let r1 ← ws1 r
        litCI (str ("page")) r1) s3
    some cap) s2

/-- The dispatch on a captured path (dsl-generator.ts lines 424-442) for
the patterns whose source has a group and no page keyword: a full URL is
returned as captured, otherwise a leading `/` is ensured. -/
def pathFromCap (cap : Str) : Str :=
  if jsStartsWith cap (str ("http://")) || jsStartsWith cap (str ("https://"))
  then cap
  else if jsStartsWith cap (str ("/")) then cap
  else str ("/") ++ cap

/-- `extractPath` (dsl-generator.ts lines 406-447): first matching pattern
wins; the keyword patterns map to their fixed paths via the
`pattern.source.includes(...)` dispatch of the source (pattern 6 always
yields `/dashboard` because its source mentions `dashboard`). -/
def extractPath (d : Str) : Option Str :=
  match scanFor p1At d with
  | some cap => some (pathFromCap cap)
  | none =>
  match scanFor p2At d with
  | some cap => some (pathFromCap cap)
  | none =>
  match scanFor p3At d with
  | some cap => some (pathFromCap cap)
  | none =>
  match scanFor p4At d with
  | some _ => some (str ("/login"))
  | none =>
  match scanFor p5At d with
  | some _ => some (str ("/register"))
  | none =>
  match scanFor p6At d with
  | some _ => some (str ("/dashboard"))
  | none =>
  match scanFor p7At d with
  | some cap => some (pathFromCap cap)
  | none => none

/-! ### extractTags and generateTestCase (dsl-generator.ts 358-404, 725-735) -/

/-- Case-insensitive substring test, modelling `/pat/i.test(d)`. -/
def containsCI (d pat : Str) : Bool := (scanFor (litCI pat) d).isSome

/-- `extractTags` (dsl-generator.ts lines 725-735). -/
def extractTags (d : Str) : List Str :=
  (if containsCI d (str ("login")) || containsCI d (str ("signin")) then
    [str ("authentication")] else []) ++
  (if containsCI d (str ("register")) || containsCI d (str ("signup")) then
    [str ("registration")] else []) ++
  (if containsCI d (str ("error")) || containsCI d (str ("fail")) then
    [str ("negative")] else []) ++
  (if containsCI d (str ("success")) || containsCI d (str ("pass")) then
    [str ("positive")] else []) ++
  (if containsCI d (str ("form")) then [str ("form")] else [])

/-- The name character class kept by `replace(/[^a-z0-9\s]/g, '')`. -/
def nameChar (c : Char) : Bool :=
  (97 ≤ c.toNat && c.toNat ≤ 122) || (48 ≤ c.toNat && c.toNat ≤ 57) ||
  wsChar c

/-- Helper of `squashWs`: the flag records whether the scan is inside a
whitespace run whose `_` has already been emitted. -/
def squashWsAux : Bool → Str → Str
  | _, [] => []
  | inWs, c :: t =>
    if wsChar c then
      if inWs then squashWsAux true t else '_' :: squashWsAux true t
    else c :: squashWsAux false t

/-- `replace(/\s+/g, '_')`: each maximal whitespace run becomes one
underscore. -/
def squashWs (s : Str) : Str := squashWsAux false s

/-- The test-case name computation of `generateTestCase` (lines 369-373):
lower-case, strip characters outside `[a-z0-9\s]`, trim, then turn each
whitespace run into `_`. -/
def toName (description : Str) : Str :=
  squashWs (jsTrim ((jsToLower description).filter nameChar))

/-- `generateTestCase` (dsl-generator.ts lines 358-404). -/
def generateTestCase (description baseUrl : Str)
    (options : GenerationOptions := {}) : TestCase :=
  let includeNavigation := options.includeNavigation.getD true
  let generateAssertions := options.generateAssertions.getD true
  let name := toName description
  let lowerDesc := jsToLower description
  let navSteps : List TestStep :=
    if includeNavigation then
      [{ action := str ("goto"),
         path := some (jsOr (extractPath lowerDesc) (str ("/"))) }]
    else []
  let formSteps := parseFormInteractions lowerDesc options.testData
  let clickSteps := parseClickActions lowerDesc
  let assertSteps := if generateAssertions then parseAssertions lowerDesc else []
  { meta := { name := name, baseUrl := baseUrl,
              description := some description,
              tags := some (extractTags lowerDesc) },
    steps := navSteps ++ formSteps ++ clickSteps ++ assertSteps }

/-! ### extractAllValues (universal-strict-generator.ts lines 81-136) -/

/-- `/(?:try\s+to\s+)?(?:login|signin|log\s+in)\s+with\s+username\s+([A-Za-z0-9_\.@-]+)/i` -/
def au1At (s : Str) : Option Str :=
  optThen tryTo (fun s0 => do
    let s1 ← loginKw s0
    let s2 ← ws1 s1
    let s3 ← litCI (str ("with")) s2
    let s4 ← ws1 s3
    let s5 ← litCI (str ("username")) s4
    let s6 ← ws1 s5
    credCap1 s6) s

/-- `/(?:try\s+to\s+)?(?:login|signin|log\s+in)\s+with\s+user\s+([A-Za-z0-9_\.@-]+)/i` -/
def au2At (s : Str) : Option Str :=
  optThen tryTo (fun s0 => do
    let s1 ← loginKw s0
    let s2 ← ws1 s1
    let s3 ← litCI (str ("with")) s2
    let s4 ← ws1 s3
    let s5 ← litCI (str ("user")) s4
    let s6 ← ws1 s5
    credCap1 s6) s

/-- `/(?:try\s+to\s+)?(?:login|signin|log\s+in)\s+using\s+([A-Za-z0-9_\.@-]+)/i` -/
def au3At (s : Str) : Option Str :=
  optThen tryTo (fun s0 => do
    let s1 ← loginKw s0
    let s2 ← ws1 s1
    let s3 ← litCI (str ("using")) s2
    let s4 ← ws1 s3
    credCap1 s4) s

/-- The follower `(?:\s+and|\s*$)` of patterns 4 and 5. -/
def andOrEnd (s : Str) : Option Str :=
  (do
    let s1 ← ws1 s
    litCI (str ("and")) s1) <|> wsEnd s

/-- `/username\s+([A-Za-z0-9_\.@-]+)(?:\s+and|\s*$)/i` -/
def au4At (s : Str) : Option Str := do
  let s1 ← litCI (str ("username")) s
  let s2 ← ws1 s1
  let (cap, _) ← capPlus credChar andOrEnd s2
  some cap

/-- `/user\s+([A-Za-z0-9_\.@-]+)(?:\s+and|\s*$)/i` -/
def au5At (s : Str) : Option Str := do
  let s1 ← litCI (str ("user")) s
  let s2 ← ws1 s1
  let (cap, _) ← capPlus credChar andOrEnd s2
  some cap

/-- `/with\s+([A-Za-z0-9_\.@-]+)\s+and\s+password/i` -/
def au6At (s : Str) : Option Str := do
  let s1 ← litCI (str ("with")) s
  let s2 ← ws1 s1
  let (cap, _) ← capPlus credChar (fun r => do
      let r1 ← ws1 r
      let r2 ← litCI (str ("and")) r1
      let r3 ← ws1 r2
      litCI (str ("password")) r3) s2
  some cap

/-- `(?:and\s+)?` — the optional prefix of the first two password
patterns. -/
def andSp (s : Str) : Option Str := do
  let s1 ← litCI (str ("and")) s
  ws1 s1

/-- `/(?:and\s+)?password\s+([A-Za-z0-9_\.@!-]+)/i` -/
def ap1At (s : Str) : Option Str :=
  optThen andSp (fun s0 => do
    let s1 ← litCI (str ("password")) s0
    let s2 ← ws1 s1
    let cap := s2.takeWhile pwdChar
    if cap.isEmpty then none else some cap) s

/-- `/(?:and\s+)?pass\s+([A-Za-z0-9_\.@!-]+)/i` -/
def ap2At (s : Str) : Option Str :=
  optThen andSp (fun s0 => do
    let s1 ← litCI (str ("pass")) s0
    let s2 ← ws1 s1
    let cap := s2.takeWhile pwdChar
    if cap.isEmpty then none else some cap) s

/-- The follower `(?:\s*$|\s*[,.])` of the third password pattern. -/
def ap3End (s : Str) : Option Str :=
  wsEnd s <|> oneOf (fun c => c = ',' || c = '.') (ws0 s)

/-- `/and\s+([A-Za-z0-9_\.@!-]+)(?:\s*$|\s*[,.])/i` — the capture class
contains `.`, which is also in the follower class, so the greedy run
genuinely backtracks. -/
def ap3At (s : Str) : Option Str := do
  let s1 ← litCI (str ("and")) s
  let s2 ← ws1 s1
  let (cap, _) ← capPlus pwdChar ap3End s2
  some cap

/-- The guard `values.username?.includes(match[1])` (line 111): undefined
username is falsy. -/
def pwdGuard (username : Option Str) (cand : Str) : Bool :=
  match username with
  | some u => jsIncludes u cand
  | none => false

/-- The password-pattern loop of `extractAllValues` (lines 109-115): a
candidate is accepted only when present, truthy, and not a substring of the
already-extracted username; a rejected candidate does not stop the loop. -/
def passwordLoop (username : Option Str) :
    List (Str → Option Str) → Str → Option Str
  | [], _ => none
  | m :: ms, d =>
    match scanFor m d with
    | some cand =>
      if !cand.isEmpty && !pwdGuard username cand then some (jsTrim cand)
      else passwordLoop username ms d
    | none => passwordLoop username ms d

/-- `(?:go\s+to|visit|navigate\s+to|login\s+to)`. -/
def urlNavKw (s : Str) : Option Str :=
  (do
    let s1 ← litCI (str ("go")) s
    let s2 ← ws1 s1
    litCI (str ("to")) s2) <|>
  litCI (str ("visit")) s <|>
  (do
    let s1 ← litCI (str ("navigate")) s
    let s2 ← ws1 s1
    litCI (str ("to")) s2) <|>
  (do
    let s1 ← litCI (str ("login")) s
    let s2 ← ws1 s1
    litCI (str ("to")) s2)

/-- `/(?:go\s+to|visit|navigate\s+to|login\s+to)\s+(https?:\/\/[^\s]+)/i` -/
def auUrlAt (s : Str) : Option Str := do
  let s1 ← urlNavKw s
  let s2 ← ws1 s1
  let s3 ← httpsSlashes s2
  let scheme := s2.take (s2.length - s3.length)
  let body := s3.takeWhile (fun c => !wsChar c)
  if body.isEmpty then none else some (scheme ++ body)

/-- `(?:click|press|tap)`. -/
def clickVerb3 (s : Str) : Option Str :=
  litCI (str ("click")) s <|> litCI (str ("press")) s <|>
    litCI (str ("tap")) s

/-- `(?:login|signin|submit|register)` — the keyword of the button
pattern. -/
def btnKw (s : Str) : Option Str :=
  litCI (str ("login")) s <|> litCI (str ("signin")) s <|>
    litCI (str ("submit")) s <|> litCI (str ("register")) s

/-- The button extraction (lines 124-127):
`match(/(?:click|press|tap)\s+(?:the\s+)?(?:login|signin|submit|register)/i)`
followed by `match[0].replace(/(?:click|press|tap)\s+(?:the\s+)?/i, '')`,
which leaves exactly the keyword text as it appears in the input. -/
def auButtonAt (s : Str) : Option Str := do
  let s1 ← clickVerb3 s
  let s2 ← ws1 s1
  optThen theSp (fun s3 => do
    let s4 ← btnKw s3
    some (s3.take (s3.length - s4.length))) s2

/-- `/expect\s+([^,.\n]+)/i` -/
def auExpectAt (s : Str) : Option Str := do
  let s1 ← litCI (str ("expect")) s
  let s2 ← ws1 s1
  let cap := s2.takeWhile expectedChar
  if cap.isEmpty then none else some cap

/-- The `Record<string, string>` built by `extractAllValues`; the fields
are listed in the order the source assigns them, which fixes the JS
object-key insertion order used by `performSelfValidation`. -/
structure ExtractedValues where
  username : Option Str := none
  password : Option Str := none
  url : Option Str := none
  button : Option Str := none
  expected : Option Str := none
deriving DecidableEq

/-- `extractAllValues` (universal-strict-generator.ts lines 81-136). -/
def extractAllValues (d : Str) : ExtractedValues :=
  let username := firstCap [au1At, au2At, au3At, au4At, au5At, au6At] d
  { username := username
    password := passwordLoop username [ap1At, ap2At, ap3At] d
    url := scanFor auUrlAt d
    button := scanFor auButtonAt d
    expected := (scanFor auExpectAt d).map jsTrim }

/-! ### parseToResolvedSteps (universal-strict-generator.ts lines 141-178) -/

/-- `parseToResolvedSteps`. -/
def parseToResolvedSteps (d : Str) (values : ExtractedValues) : List Str :=
  let lowerDesc := jsToLower d
  let nav : List Str :=
    if truthy values.url then [str ("Navigate to ") ++ values.url.getD []]
    else if jsIncludes lowerDesc (str ("login")) ||
        jsIncludes lowerDesc (str ("signin")) then
      [str ("Navigate to login page (URL: ") ++
        jsOr values.url (str ("// TODO: URL not specified")) ++ str (")")]
    else []
  let userFill : List Str :=
    if truthy values.username then
      [str ("Fill username field with \"") ++ values.username.getD [] ++
        str ("\"")]
    else []
  let pwdFill : List Str :=
    if truthy values.password then
      [str ("Fill password field with \"") ++ values.password.getD [] ++
        str ("\"")]
    else []
  let clicks : List Str :=
    if jsIncludes lowerDesc (str ("login")) ||
        jsIncludes lowerDesc (str ("signin")) then
      [str ("Click login button")]
    else if jsIncludes lowerDesc (str ("submit")) then
      [str ("Click submit button")]
    else []
  let asserts : List Str :=
    if truthy values.expected then
      [str ("Assert: ") ++ values.expected.getD []]
    else if jsIncludes lowerDesc (str ("login")) &&
        !jsIncludes lowerDesc (str ("wrong")) &&
        !jsIncludes lowerDesc (str ("invalid")) then
      [str ("Assert: URL contains '/dashboard' OR login success indicator appears")]
    else if jsIncludes lowerDesc (str ("error")) ||
        jsIncludes lowerDesc (str ("wrong")) ||
        jsIncludes lowerDesc (str ("invalid")) then
      [str ("Assert: Error message appears (exact text: // TODO: Specify error message)")]
    else []
  nav ++ userFill ++ pwdFill ++ clicks ++ asserts

/-! ### enhanceWithStrictMode (universal-strict-generator.ts lines 183-261) -/

/-- The per-step switch of `enhanceWithStrictMode`. -/
def enhanceStep (extractedValues : ExtractedValues)
    (originalDescription : Str) (step : TestStep) : TestStep :=
  if step.action = str ("goto") then
    { action := str ("goto"),
      path := some (jsOr extractedValues.url
        (jsOr step.path (str ("// TODO: URL not specified")))) }
  else if step.action = str ("fill") then
    match step.locator with
    | some loc =>
      match loc.value with
      | some v =>
        if jsIncludes (jsToLower v) (str ("username")) then
          { action := str ("fill"), locator := step.locator,
            text := some (jsOr extractedValues.username
              (str ("// TODO: Username not specified"))) }
        else if jsIncludes (jsToLower v) (str ("password")) then
          { action := str ("fill"), locator := step.locator,
            text := some (jsOr extractedValues.password
              (str ("// TODO: Password not specified"))) }
        else step
      | none => step
    | none => step
  else if step.action = str ("click") then step
  else if step.action = str ("assert") then
    if jsIncludes (jsToLower originalDescription) (str ("dashboard")) then
      mkAssert (str ("urlContains")) none (some (str ("/dashboard")))
    else if truthy extractedValues.expected then
      mkAssert (str ("containsText")) (some (cssLoc (str ("body"))))
        (some (extractedValues.expected.getD []))
    else
      mkAssert (str ("containsText"))
        (some (cssLoc (str ("// TODO: Specify selector"))))
        (some (str ("// TODO: Specify expected text")))
  else step

/-- `enhanceWithStrictMode`. -/
def enhanceWithStrictMode (testCase : TestCase)
    (extractedValues : ExtractedValues) (originalDescription : Str) :
    TestCase :=
  { testCase with
    steps := testCase.steps.map (enhanceStep extractedValues originalDescription) }

/-! ### Playwright code rendering (code-generator.ts, TypeScript path)

`generateFromPlainEnglish` calls `generateCode` with the literals
`{ framework: 'playwright', language: 'typescript' }`; the dispatch in
`generateCode` therefore always resolves to `generatePlaywrightCode` and
cannot reach the `throw` of the `default` branch, so only the Playwright
renderer is embedded. -/

structure CodeGenerationOptions where
  framework : Str
  language : Str
  includeComments : Option Bool := none
  includeScreenshots : Option Bool := none
  timeout : Option Nat := none
  headless : Option Bool := none
deriving DecidableEq

structure GeneratedCode where
  code : Str
  framework : Str
  language : Str
  dependencies : List Str
  setupInstructions : List Str
deriving DecidableEq

/-- `generatePlaywrightLocator` (code-generator.ts lines 245-262): a switch
on `locator.type`; missing fields interpolate as `undefined` exactly as a
JS template literal would. -/
def generatePlaywrightLocator (locator : Locator) : Str :=
  if locator.type = some (str ("label")) then
    str ("label:has-text(\"") ++ undefOr locator.value ++ str ("\")")
  else if locator.type = some (str ("id")) then
    str ("#") ++ undefOr locator.value
  else if locator.type = some (str ("role")) then
    str ("role=") ++ undefOr locator.role ++ str ("[name=\"") ++
      undefOr locator.name ++ str ("\"]")
  else if locator.type = some (str ("text")) then
    str ("text=") ++ undefOr locator.value
  else if locator.type = some (str ("css")) then
    undefOr locator.value
  else if locator.type = some (str ("xpath")) then
    str ("xpath=") ++ undefOr locator.value
  else jsOr locator.value (str (""))

/-- `generatePlaywrightAssertion` (code-generator.ts lines 264-295).  The
source reads `step.assertion!`; in this pipeline every assert step carries
an assertion, so the default used here for a missing one is unreachable. -/
def generatePlaywrightAssertion (step : TestStep) (indent : Nat) : Str :=
  let spaces : Str := List.replicate indent ' '
  let assertion := step.assertion.getD { type := [] }
  let locOr := fun (dflt : String) =>
    match assertion.locator with
    | some l => generatePlaywrightLocator l
    | none => str (dflt)
  if assertion.type = str ("containsText") then
    spaces ++ str ("await expect(page.locator('") ++ locOr ("body") ++
      str ("')).toContainText('") ++ undefOr assertion.value ++ str ("');")
  else if assertion.type = str ("visible") then
    spaces ++ str ("await expect(page.locator('") ++ locOr ("body") ++
      str ("')).toBeVisible();")
  else if assertion.type = str ("urlContains") then
    spaces ++ str ("await expect(page).toHaveURL(new RegExp('.*") ++
      undefOr assertion.value ++ str (".*'));")
  else if assertion.type = str ("hasValue") then
    spaces ++ str ("await expect(page.locator('") ++ locOr ("input") ++
      str ("')).toHaveValue('") ++ undefOr assertion.value ++ str ("');")
  else if assertion.type = str ("isEnabled") then
    spaces ++ str ("await expect(page.locator('") ++ locOr ("button") ++
      str ("')).toBeEnabled();")
  else if assertion.type = str ("isDisabled") then
    spaces ++ str ("await expect(page.locator('") ++ locOr ("button") ++
      str ("')).toBeDisabled();")
  else spaces ++ str ("// Unknown assertion: ") ++ assertion.type

/-- `generatePlaywrightStep` (code-generator.ts lines 201-243).  The
source reads `step.locator!` for fill and click; every such step built by
this pipeline carries a locator, so the default is unreachable. -/
def generatePlaywrightStep (step : TestStep) (indent : Nat)
    (includeComments includeScreenshots : Bool) (index : Nat) : Str :=
  let spaces : Str := List.replicate indent ' '
  let comment : Str :=
    if includeComments then
      spaces ++ str ("// Step ") ++ str (Nat.repr (index + 1)) ++
        str (": ") ++ step.action ++ str ("\n")
    else []
  let body : Str :=
    if step.action = str ("goto") then
      spaces ++ str ("await page.goto('") ++ jsOr step.path (str ("/")) ++
        str ("');")
    else if step.action = str ("fill") then
      spaces ++ str ("await page.locator('") ++
        generatePlaywrightLocator (step.locator.getD {}) ++
        str ("').fill('") ++ undefOr step.text ++ str ("');")
    else if step.action = str ("click") then
      spaces ++ str ("await page.locator('") ++
        generatePlaywrightLocator (step.locator.getD {}) ++
        str ("').click();")
    else if step.action = str ("assert") then
      generatePlaywrightAssertion step indent
    else spaces ++ str ("// Unknown action: ") ++ step.action
  let shot : Str :=
    if includeScreenshots then
      str ("\n") ++ spaces ++ str ("await page.screenshot(\x7b path: 'step-") ++
        str (Nat.repr (index + 1)) ++ str ("-") ++ step.action ++
        str (".png' \x7d);")
    else []
  comment ++ body ++ shot

/-- The TypeScript imports line of the Playwright template. -/
def playImports : Str :=
  str ("import \x7b test, expect, Page \x7d from '@playwright/test';")

/-- `generatePlaywrightCode` (code-generator.ts lines 42-84), defaults
`includeComments = true`, `includeScreenshots = false`,
`timeout = 30000`. -/
def generatePlaywrightCode (testCase : TestCase)
    (options : CodeGenerationOptions) : GeneratedCode :=
  let includeComments := options.includeComments.getD true
  let includeScreenshots := options.includeScreenshots.getD false
  let timeout := options.timeout.getD 30000
  let isTypeScript := options.language = str ("typescript")
  let fileExt := if isTypeScript then str (".ts") else str (".js")
  let imports :=
    if isTypeScript then playImports
    else str ("const \x7b test, expect \x7d = require('@playwright/test');")
  let testFunction :=
    if isTypeScript then
      str ("test('") ++ testCase.meta.name ++
        str ("', async (\x7b page \x7d: \x7b page: Page \x7d) => \x7b")
    else
      str ("test('") ++ testCase.meta.name ++
        str ("', async (\x7b page \x7d) => \x7b")
  let c1 :=
    if includeComments then
      str ("// Test: ") ++ jsOr testCase.meta.description testCase.meta.name
    else []
  let c2 :=
    if includeComments then str ("// Base URL: ") ++ testCase.meta.baseUrl
    else []
  let c3 :=
    if includeComments && testCase.meta.tags.isSome then
      str ("// Tags: ") ++
        List.intercalate (str (", ")) (testCase.meta.tags.getD [])
    else []
  let c4 := if includeComments then str ("  // Set timeout for the test") else ([] : Str)
  let stepsStr :=
    List.intercalate (str ("\n"))
      (testCase.steps.enum.map (fun p =>
        generatePlaywrightStep p.2 2 includeComments includeScreenshots p.1))
  let code :=
    imports ++ (str ("\n\n") ++ (c1 ++ (str ("\n") ++ (c2 ++ (str ("\n") ++
      (c3 ++ (str ("\n\n") ++ (testFunction ++ (str ("\n") ++ (c4 ++
      (str ("\n  test.setTimeout(") ++ (str (Nat.repr timeout) ++
      (str (");\n  \n") ++ (stepsStr ++ str ("\n\x7d);")))))))))))))))
  { code := code
    framework := str ("playwright")
    language := options.language
    dependencies :=
      [str ("@playwright/test")] ++
        (if isTypeScript then [str ("typescript"), str ("@types/node")] else [])
    setupInstructions :=
      [str ("npm install @playwright/test"),
       str ("npx playwright install"),
       str ("Save the test as ") ++ testCase.meta.name ++ fileExt,
       str ("Run with: npx playwright test")] }

/-! ### performSelfValidation and generateFromPlainEnglish
(universal-strict-generator.ts lines 25-76, 266-298) -/

/-- The `Object.entries` view of an `ExtractedValues` record, in the
insertion order fixed by `extractAllValues`. -/
def entriesOf (v : ExtractedValues) : List (Str × Str) :=
  (match v.username with
   | some x => [(str ("username"), x)]
   | none => []) ++
  (match v.password with
   | some x => [(str ("password"), x)]
   | none => []) ++
  (match v.url with
   | some x => [(str ("url"), x)]
   | none => []) ++
  (match v.button with
   | some x => [(str ("button"), x)]
   | none => []) ++
  (match v.expected with
   | some x => [(str ("expected"), x)]
   | none => [])

/-- Deviation message of the completeness check (line 276). -/
def extractedMissingMsg (k v : Str) : Str :=
  str ("DEVIATION: Extracted ") ++ k ++ str (" value \"") ++ v ++
    str ("\" not found in generated code")

/-- Deviation message of the `testuser` substitution check (line 282). -/
def userReplMsg (u : Str) : Str :=
  str ("DEVIATION: Username \"") ++ u ++
    str ("\" replaced with placeholder \"testuser\"")

/-- Deviation message of the `password123` substitution check (line 286). -/
def pwdReplMsg (p : Str) : Str :=
  str ("DEVIATION: Password \"") ++ p ++
    str ("\" replaced with placeholder \"password123\"")

/-- Deviation message of the forbidden-additions check (line 293). -/
def unauthorizedMsg (f : Str) : Str :=
  str ("DEVIATION: Unauthorized addition \"") ++ f ++
    str ("\" found in code")

/-- The forbidden-additions deny-list of `performSelfValidation`
(line 290). -/
def selfForbidden : List Str :=
  [str ("waitForTimeout"), str ("waitForSelector"), str ("retry"),
   str ("catch")]

/-- The completeness part of `performSelfValidation` (lines 274-278). -/
def selfCompletenessDevs (generatedCode : Str) (v : ExtractedValues) :
    List Str :=
  (entriesOf v).filterMap (fun kv =>
    if !kv.2.isEmpty && !jsStartsWith kv.2 (str ("//")) &&
        !jsIncludes generatedCode kv.2 then
      some (extractedMissingMsg kv.1 kv.2)
    else none)

/-- The `testuser` substitution part (lines 281-283). -/
def selfUserDevs (generatedCode : Str) (v : ExtractedValues) : List Str :=
  match v.username with
  | some u =>
    if !u.isEmpty && jsIncludes generatedCode (str ("testuser")) &&
        u ≠ str ("testuser") then [userReplMsg u]
    else []
  | none => []

/-- The `password123` substitution part (lines 285-287). -/
def selfPwdDevs (generatedCode : Str) (v : ExtractedValues) : List Str :=
  match v.password with
  | some p =>
    if !p.isEmpty && jsIncludes generatedCode (str ("password123")) &&
        p ≠ str ("password123") then [pwdReplMsg p]
    else []
  | none => []

/-- The forbidden-additions part (lines 290-295). -/
def selfForbiddenDevs (generatedCode : Str) : List Str :=
  selfForbidden.filterMap (fun f =>
    if jsIncludes generatedCode f then some (unauthorizedMsg f) else none)

/-- `performSelfValidation` (universal-strict-generator.ts lines 266-298).
The `originalDescription` parameter is accepted but never read by the
source body. -/
def performSelfValidation (originalDescription generatedCode : Str)
    (extractedValues : ExtractedValues) : List Str :=
  let _ := originalDescription
  selfCompletenessDevs generatedCode extractedValues ++
    selfUserDevs generatedCode extractedValues ++
    selfPwdDevs generatedCode extractedValues ++
    selfForbiddenDevs generatedCode

structure UniversalStrictResult where
  resolvedSteps : List Str
  playwrightCode : Str
  extractedValues : ExtractedValues
  errors : List Str
deriving DecidableEq

/-- Steps 1-4 of `generateFromPlainEnglish`: the strict-mode TestCase the
pipeline renders (the source keeps it in the local `strictTestCase`). -/
def strictPipelineTestCase (plainEnglish baseUrl : Str) : TestCase :=
  enhanceWithStrictMode (generateTestCase plainEnglish baseUrl {})
    (extractAllValues plainEnglish) plainEnglish

/-- `generateFromPlainEnglish` (universal-strict-generator.ts lines 25-76).
The `try`/`catch` of the source cannot fire here: `generateCode` is called
with the `playwright` framework literal, whose renderer does not throw. -/
def generateFromPlainEnglish (plainEnglish : Str)
    (baseUrl : Str := str ("// TODO: URL")) : UniversalStrictResult :=
  let extractedValues := extractAllValues plainEnglish
  let resolvedSteps := parseToResolvedSteps plainEnglish extractedValues
  let strictTestCase := strictPipelineTestCase plainEnglish baseUrl
  let result := generatePlaywrightCode strictTestCase
    { framework := str ("playwright"), language := str ("typescript") }
  let validationErrors :=
    performSelfValidation plainEnglish result.code extractedValues
  match validationErrors with
  | [] =>
    { resolvedSteps := resolvedSteps, playwrightCode := result.code,
      extractedValues := extractedValues, errors := [] }
  | e :: es =>
    { resolvedSteps := resolvedSteps,
      playwrightCode := str ("ERROR: DEVIATION DETECTED\n") ++
        List.intercalate (str ("\n")) (e :: es),
      extractedValues := extractedValues, errors := e :: es }

/-! ### validateStrictMode (strict-validator.ts lines 22-94) -/

structure LockedValue where
  type : Str
  key : Str
  value : Str
  isLocked : Bool
deriving DecidableEq

structure ValidationResult where
  isValid : Bool
  errors : List Str
  deviations : List Str
deriving DecidableEq

/-- The completeness deviation message of `validateStrictMode` (line 34). -/
def missingLockMsg (lock : LockedValue) : Str :=
  str ("DEVIATION DETECTED: Locked ") ++ lock.type ++ str (" \"") ++
    lock.value ++ str ("\" not found in generated code")

/-- The per-type replacement checks of `validateStrictMode`
(lines 38-68). -/
def lockTypeDevs (generatedCode : Str) (lock : LockedValue) : List Str :=
  if lock.type = str ("URL") then
    if jsIncludes generatedCode (str ("localhost")) &&
        !jsIncludes lock.value (str ("localhost")) then
      [str ("DEVIATION DETECTED: URL replaced with localhost")]
    else []
  else if lock.type = str ("SELECTOR") then
    (if jsIncludes generatedCode (str ("#error")) &&
        lock.value ≠ str ("#error") then
      [str ("DEVIATION DETECTED: Selector replaced with generic #error")]
    else []) ++
    (if jsIncludes generatedCode (str ("input[type=\"text\"]")) &&
        !jsIncludes lock.value (str ("input[type=\"text\"]")) then
      [str ("DEVIATION DETECTED: Selector replaced with generic input selector")]
    else [])
  else if lock.type = str ("VALUE") then
    (if jsIncludes generatedCode (str ("testuser")) &&
        lock.value ≠ str ("testuser") then
      [str ("DEVIATION DETECTED: Value replaced with placeholder \"testuser\"")]
    else []) ++
    (if jsIncludes generatedCode (str ("password123")) &&
        lock.value ≠ str ("password123") then
      [str ("DEVIATION DETECTED: Value replaced with placeholder \"password123\"")]
    else [])
  else if lock.type = str ("ASSERTION_TEXT") then
    if jsIncludes generatedCode (str ("Error")) &&
        lock.value ≠ str ("Error") then
      [str ("DEVIATION DETECTED: Assertion text replaced with generic \"Error\"")]
    else []
  else []

/-- The per-lock deviations: the `continue` for unlocked or empty values,
the verbatim-presence check, then the type switch. -/
def lockDeviations (generatedCode : Str) (lock : LockedValue) : List Str :=
  if !lock.isLocked || lock.value.isEmpty then []
  else
    (if !jsIncludes generatedCode lock.value then [missingLockMsg lock]
     else []) ++ lockTypeDevs generatedCode lock

/-- The fixed forbidden-additions deny-list (lines 72-81). -/
def forbiddenAdditions : List Str :=
  [str ("await page.waitForTimeout"), str ("await page.waitForSelector"),
   str ("retry"), str ("try \x7b"), str ("catch ("), str (".reload()"),
   str (".goBack()"), str (".goForward()")]

/-- Deviation message of the forbidden-additions loop (line 85). -/
def forbiddenLockMsg (f : Str) : Str :=
  str ("DEVIATION DETECTED: Unauthorized addition \"") ++ f ++
    str ("\" found in code")

/-- The forbidden-additions check of `validateStrictMode` (lines 83-87). -/
def forbiddenDeviations (generatedCode : Str) : List Str :=
  forbiddenAdditions.filterMap (fun f =>
    if jsIncludes generatedCode f then some (forbiddenLockMsg f) else none)

/-- `validateStrictMode` (strict-validator.ts lines 22-94): the `errors`
array is created empty and never pushed to; `isValid` is
`deviations.length === 0`. -/
def validateStrictMode (originalLocks : List LockedValue)
    (generatedCode : Str) : ValidationResult :=
  let deviations :=
    (originalLocks.map (lockDeviations generatedCode)).flatten ++
      forbiddenDeviations generatedCode
  { isValid := deviations.isEmpty, errors := [], deviations := deviations }

/-! ### Concrete inputs and spec-side auxiliary definitions used by the
claim theorems -/

/-- The lower-case restriction of the credential class: `[a-z0-9_@.-]`.
`generateTestCase` lower-cases the instruction before matching, so this is
the class on which captured values survive unchanged. -/
def lcredChar (c : Char) : Bool :=
  (97 ≤ c.toNat && c.toNat ≤ 122) || (48 ≤ c.toNat && c.toNat ≤ 57) ||
  c.toNat = 95 || c.toNat = 64 || c.toNat = 46 || c.toNat = 45

/-- An instruction containing the bare phrase `username X and password Y`
(X = `Bob`, Y = `secret`) with no login verb. -/
def d1 : Str := str ("username Bob and password secret")

/-- The instruction of the worked example in the spec. -/
def d2 : Str := str ("try to login with username Sam and password sammy")

/-- The step sequence the spec claims for `d2`. -/
def c2ClaimedSteps : List TestStep :=
  [{ action := str ("goto"), path := some (str ("/login")) },
   mkFillStep (str ("username")) (str ("Sam")),
   mkFillStep (str ("password")) (str ("sammy")),
   { action := str ("click"),
     locator := some { type := some (str ("role")),
                       role := some (str ("button")),
                       name := some (str ("Login")) } },
   mkAssert (str ("urlContains")) none (some (str ("/dashboard")))]

/-- The credential-free instruction of the negative worked example. -/
def d6 : Str := str ("login with wrong password and expect error message")

/-- A login instruction on which both a username and a password are
extracted (used by the C9 witness). -/
def d9 : Str := str ("login with username Sam and password sammy")

/-- A concrete locked value (used by the C3 witness). -/
def lockW : LockedValue :=
  { type := str ("VALUE"), key := str ("value"), value := str ("Sam"),
    isLocked := true }

/-- A concrete extracted-values record (used by the C4 witness). -/
def vW : ExtractedValues :=
  { username := some (str ("Sam")), password := some (str ("pw1")) }

/-! ## Helper lemmas -/

theorem credChar_of_lcred {c : Char} (h : lcredChar c = true) :
    credChar c = true := by
  simp only [lcredChar, Bool.or_eq_true, Bool.and_eq_true,
    decide_eq_true_eq] at h
  simp only [credChar, wordChar, alnumChar, Bool.or_eq_true,
    Bool.and_eq_true, decide_eq_true_eq]
  rcases h with ((((h | h) | h) | h) | h) | h <;> omega

theorem wsChar_eq_false_of_credChar {c : Char} (h : credChar c = true) :
    wsChar c = false := by
  rw [Bool.eq_false_iff]
  intro hw
  simp only [credChar, wordChar, alnumChar, Bool.or_eq_true,
    Bool.and_eq_true, decide_eq_true_eq] at h
  simp only [wsChar, Bool.or_eq_true, decide_eq_true_eq] at hw
  rcases h with (((((h | h) | h) | h) | h) | h) | h <;>
    rcases hw with ((((hw | hw) | hw) | hw) | hw) | hw <;> omega

theorem wsChar_eq_false_of_pwdChar {c : Char} (h : pwdChar c = true) :
    wsChar c = false := by
  rw [Bool.eq_false_iff]
  intro hw
  simp only [pwdChar, credChar, wordChar, alnumChar, Bool.or_eq_true,
    Bool.and_eq_true, decide_eq_true_eq] at h
  simp only [wsChar, Bool.or_eq_true, decide_eq_true_eq] at hw
  rcases h with ((((((h | h) | h) | h) | h) | h) | h) | h <;>
    rcases hw with ((((hw | hw) | hw) | hw) | hw) | hw <;> omega

theorem toLower_eq_self_of_lcred {c : Char} (h : lcredChar c = true) :
    c.toLower = c := by
  have h' : ¬(Char.toNat c ≥ 65 ∧ Char.toNat c ≤ 90) := by
    simp only [lcredChar, Bool.or_eq_true, Bool.and_eq_true,
      decide_eq_true_eq] at h
    rcases h with ((((h | h) | h) | h) | h) | h <;> omega
  simp [Char.toLower, h']

theorem map_toLower_eq_self {Z : Str} (h : ∀ c ∈ Z, lcredChar c = true) :
    Z.map Char.toLower = Z := by
  conv_rhs => rw [← List.map_id Z]
  exact List.map_congr_left (fun c hc => toLower_eq_self_of_lcred (h c hc))

theorem dropWhile_eq_self_of_head {l : Str} {p : Char → Bool}
    (h : ∀ c ∈ l, p c = false) : l.dropWhile p = l := by
  cases l with
  | nil => rfl
  | cons c t =>
    rw [List.dropWhile_cons_of_neg]
    simp [h c (by simp)]

theorem jsTrim_eq_self {l : Str} (h : ∀ c ∈ l, wsChar c = false) :
    jsTrim l = l := by
  unfold jsTrim
  rw [dropWhile_eq_self_of_head h]
  rw [dropWhile_eq_self_of_head (fun c hc => h c (List.mem_reverse.mp hc))]
  exact List.reverse_reverse l

theorem takeWhile_eq_self_of_all {l : Str} {p : Char → Bool}
    (h : ∀ c ∈ l, p c = true) : l.takeWhile p = l := by
  have h2 : (l ++ ([] : Str)).takeWhile p = l ++ ([] : Str).takeWhile p :=
    List.takeWhile_append_of_pos h
  simpa using h2

theorem takeWhile_append_stop {p : Char → Bool} {X R : Str} {c : Char}
    (hX : ∀ a ∈ X, p a = true) (hc : p c = false) :
    (X ++ c :: R).takeWhile p = X ∧ (X ++ c :: R).dropWhile p = c :: R := by
  constructor
  · rw [List.takeWhile_append_of_pos hX, List.takeWhile_cons_of_neg (by simp [hc])]
    simp
  · rw [List.dropWhile_append_of_pos hX, List.dropWhile_cons_of_neg (by simp [hc])]

theorem giveBack_of_cont_some {cont : Str → Option β} {capRev rest : Str}
    {b : β} (hne : capRev ≠ []) (hc : cont rest = some b) :
    giveBack cont capRev rest = some (capRev.reverse, b) := by
  cases capRev with
  | nil => exact absurd rfl hne
  | cons c pre => simp [giveBack, hc]

theorem capPlus_eq_of_splits {cls : Char → Bool} {cont : Str → Option β}
    {s X rest : Str} {b : β} (ht : s.takeWhile cls = X)
    (hd : s.dropWhile cls = rest) (hne : X ≠ []) (hc : cont rest = some b) :
    capPlus cls cont s = some (X, b) := by
  unfold capPlus
  rw [ht, hd, giveBack_of_cont_some (by simpa using hne) hc,
    List.reverse_reverse]

theorem giveBack_mem_cls {cls : Char → Bool} {cont : Str → Option β} :
    ∀ {capRev rest cap : Str} {b : β},
    (∀ c ∈ capRev, cls c = true) →
    giveBack cont capRev rest = some (cap, b) → ∀ c ∈ cap, cls c = true := by
  intro capRev
  induction capRev with
  | nil => intro rest cap b _ h; simp [giveBack] at h
  | cons c pre ih =>
    intro rest cap b hall h
    rw [giveBack] at h
    cases hc : cont rest with
    | some b2 =>
      rw [hc] at h
      simp only [Option.some.injEq, Prod.mk.injEq] at h
      intro x hx
      apply hall
      rw [← h.1] at hx
      exact List.mem_reverse.mp hx
    | none =>
      rw [hc] at h
      exact ih (fun x hx => hall x (List.mem_cons_of_mem c hx)) h

theorem capPlus_mem_cls {cls : Char → Bool} {cont : Str → Option β}
    {s cap : Str} {b : β} (h : capPlus cls cont s = some (cap, b)) :
    ∀ c ∈ cap, cls c = true := by
  refine giveBack_mem_cls ?_ h
  intro c hc
  exact List.mem_takeWhile_imp (List.mem_reverse.mp hc)

theorem scanFor_some {m : Str → Option α} :
    ∀ {s : Str} {a : α}, scanFor m s = some a → ∃ t, m t = some a := by
  intro s
  induction s with
  | nil => intro a h; exact ⟨[], h⟩
  | cons c t ih =>
    intro a h
    rw [scanFor] at h
    cases hm : m (c :: t) with
    | some a2 =>
      rw [hm] at h
      exact ⟨c :: t, hm.trans h⟩
    | none =>
      rw [hm] at h
      exact ih h

theorem scanFor_of_here {m : Str → Option α} {s : Str} {a : α}
    (h : m s = some a) : scanFor m s = some a := by
  cases s with
  | nil => rw [scanFor]; exact h
  | cons c t => rw [scanFor, h]

theorem optThen_some {pre : Str → Option Str} {cont : Str → Option α}
    {s : Str} {a : α} (h : optThen pre cont s = some a) :
    ∃ t, cont t = some a := by
  unfold optThen at h
  split at h
  · rename_i s2 hp
    split at h
    · rename_i a2 hc
      exact ⟨s2, hc.trans h⟩
    · rename_i hc
      exact ⟨s, h⟩
  · rename_i hp
    exact ⟨s, h⟩

theorem isPrefixOf_append_of_isPrefixOf :
    ∀ {p q : Str}, p.isPrefixOf q = true → ∀ r : Str,
      p.isPrefixOf (q ++ r) = true := by
  intro p
  induction p with
  | nil => intro q _ r; simp
  | cons a as ih =>
    intro q h r
    cases q with
    | nil => simp at h
    | cons b bs =>
      simp only [List.isPrefixOf_cons₂, Bool.and_eq_true] at h
      simp only [List.cons_append, List.isPrefixOf_cons₂, Bool.and_eq_true]
      exact ⟨h.1, ih h.2 r⟩

theorem ne_of_getElem?_ne (i : Nat) {a b : Str} (tailA tailB : Str)
    (ha : i < a.length) (hb : i < b.length) (hne : a[i]? ≠ b[i]?) :
    a ++ tailA ≠ b ++ tailB := by
  intro h
  have h2 := congrArg (fun l : Str => l[i]?) h
  simp only at h2
  rw [List.getElem?_append_left ha, List.getElem?_append_left hb] at h2
  exact hne h2

/-! ## Claim theorems -/

/-- C10: for every lock list and generated-code string, the
`ValidationResult` returned by `validateStrictMode` has an empty `errors`
array (only `deviations` is ever populated), and its `isValid` field is
`true` exactly when the `deviations` array is empty. -/
theorem c10_errors_empty_isValid_iff (locks : List LockedValue) (code : Str) :
    (validateStrictMode locks code).errors = [] ∧
    ((validateStrictMode locks code).isValid = true ↔
      (validateStrictMode locks code).deviations = []) := by
  refine ⟨rfl, ?_⟩
  show (((locks.map (lockDeviations code)).flatten ++
      forbiddenDeviations code).isEmpty = true) ↔ _
  rw [List.isEmpty_iff]
  exact Iff.rfl

/-- C3: the strict-mode validator's completeness check: every lock that is
marked locked, has a non-empty value, and does not occur verbatim in the
rendered code produces its deviation entry; and `isValid` is `true`
precisely when both the per-lock check and the forbidden-constructs check
produce no deviation. -/
theorem c3_completeness (locks : List LockedValue) (code : Str) :
    (∀ l ∈ locks, l.isLocked = true → l.value ≠ [] →
      jsIncludes code l.value = false →
      missingLockMsg l ∈ (validateStrictMode locks code).deviations) ∧
    ((validateStrictMode locks code).isValid = true ↔
      ((locks.map (lockDeviations code)).flatten = [] ∧
        forbiddenDeviations code = [])) := by
  constructor
  · intro l hl hlock hval hinc
    show missingLockMsg l ∈
      (locks.map (lockDeviations code)).flatten ++ forbiddenDeviations code
    rw [List.mem_append]
    left
    rw [List.mem_flatten]
    refine ⟨lockDeviations code l, List.mem_map_of_mem _ hl, ?_⟩
    unfold lockDeviations
    rw [if_neg]
    · rw [if_pos]
      · exact List.mem_append_left _ (List.mem_singleton.mpr rfl)
      · simp [hinc]
    · simp [hlock, List.isEmpty_iff, hval]
  · show (((locks.map (lockDeviations code)).flatten ++
        forbiddenDeviations code).isEmpty = true) ↔ _
    rw [List.isEmpty_iff, List.append_eq_nil]

/-- C3 witness: a locked `VALUE` entry `Sam` absent from the code `code`
produces its deviation entry. -/
theorem c3_completeness_witness :
    (lockW ∈ [lockW] ∧ lockW.isLocked = true ∧ lockW.value ≠ [] ∧
      jsIncludes (str ("code")) lockW.value = false) ∧
    missingLockMsg lockW ∈
      (validateStrictMode [lockW] (str ("code"))).deviations :=
  ⟨⟨by decide, by decide, by decide, by decide⟩,
    (c3_completeness [lockW] (str ("code"))).1 lockW (by decide) (by decide)
      (by decide) (by decide)⟩

/-- C5: each deny-list string contained in the rendered code yields its
deviation entry in `validateStrictMode`, and the result is not valid. -/
theorem c5_forbidden (locks : List LockedValue) (code f : Str)
    (hf : f ∈ forbiddenAdditions) (hinc : jsIncludes code f = true) :
    forbiddenLockMsg f ∈ (validateStrictMode locks code).deviations ∧
    (validateStrictMode locks code).isValid = false := by
  have hmem : forbiddenLockMsg f ∈
      (validateStrictMode locks code).deviations := by
    show forbiddenLockMsg f ∈
      (locks.map (lockDeviations code)).flatten ++ forbiddenDeviations code
    rw [List.mem_append]
    right
    unfold forbiddenDeviations
    rw [List.mem_filterMap]
    exact ⟨f, hf, by simp [hinc]⟩
  refine ⟨hmem, ?_⟩
  show (((locks.map (lockDeviations code)).flatten ++
      forbiddenDeviations code).isEmpty = false)
  rw [Bool.eq_false_iff]
  intro hempty
  rw [List.isEmpty_iff] at hempty
  exact List.ne_nil_of_mem hmem hempty

/-- C5 witness: code consisting of the literal `retry` is flagged and
invalid for any lock list. -/
theorem c5_forbidden_witness :
    (str ("retry") ∈ forbiddenAdditions ∧
      jsIncludes (str ("retry")) (str ("retry")) = true) ∧
    forbiddenLockMsg (str ("retry")) ∈
      (validateStrictMode [] (str ("retry"))).deviations ∧
    (validateStrictMode [] (str ("retry"))).isValid = false :=
  ⟨⟨by decide, by decide⟩,
    c5_forbidden [] (str ("retry")) (str ("retry")) (by decide) (by decide)⟩

/-- C7: resolution is deterministic — two calls of `generateTestCase` on
identical arguments produce structurally identical TestCases.  The
embedding is a pure function of its arguments (the source reads no clock
and no randomness), so this holds definitionally. -/
theorem c7_deterministic (description baseUrl : Str)
    (options : GenerationOptions) :
    (generateTestCase description baseUrl options).meta.name =
      (generateTestCase description baseUrl options).meta.name ∧
    (generateTestCase description baseUrl options).meta =
      (generateTestCase description baseUrl options).meta ∧
    (generateTestCase description baseUrl options).steps =
      (generateTestCase description baseUrl options).steps :=
  ⟨rfl, rfl, rfl⟩

theorem extractedMissing_ne_userRepl (k val u : Str) :
    extractedMissingMsg k val ≠ userReplMsg u := by
  unfold extractedMissingMsg userReplMsg
  simp only [List.append_assoc]
  exact ne_of_getElem?_ne 11 _ _ (by decide) (by decide) (by decide)

theorem extractedMissing_ne_pwdRepl (k val p : Str) :
    extractedMissingMsg k val ≠ pwdReplMsg p := by
  unfold extractedMissingMsg pwdReplMsg
  simp only [List.append_assoc]
  exact ne_of_getElem?_ne 11 _ _ (by decide) (by decide) (by decide)

theorem userRepl_ne_pwdRepl (x p : Str) : userReplMsg x ≠ pwdReplMsg p := by
  unfold userReplMsg pwdReplMsg
  simp only [List.append_assoc]
  exact ne_of_getElem?_ne 11 _ _ (by decide) (by decide) (by decide)

theorem unauthorized_ne_userRepl (f u : Str) :
    unauthorizedMsg f ≠ userReplMsg u := by
  unfold unauthorizedMsg userReplMsg
  simp only [List.append_assoc]
  exact ne_of_getElem?_ne 12 _ _ (by decide) (by decide) (by decide)

theorem unauthorized_ne_pwdRepl (f p : Str) :
    unauthorizedMsg f ≠ pwdReplMsg p := by
  unfold unauthorizedMsg pwdReplMsg
  simp only [List.append_assoc]
  exact ne_of_getElem?_ne 11 _ _ (by decide) (by decide) (by decide)

theorem userRepl_not_mem_completeness (code : Str) (v : ExtractedValues)
    (x : Str) : userReplMsg x ∉ selfCompletenessDevs code v := by
  intro hmem
  unfold selfCompletenessDevs at hmem
  rw [List.mem_filterMap] at hmem
  obtain ⟨kv, _, hif⟩ := hmem
  split at hif
  · exact absurd (Option.some_inj.mp hif)
      (extractedMissing_ne_userRepl kv.1 kv.2 x)
  · exact Option.noConfusion hif

theorem pwdRepl_not_mem_completeness (code : Str) (v : ExtractedValues)
    (x : Str) : pwdReplMsg x ∉ selfCompletenessDevs code v := by
  intro hmem
  unfold selfCompletenessDevs at hmem
  rw [List.mem_filterMap] at hmem
  obtain ⟨kv, _, hif⟩ := hmem
  split at hif
  · exact absurd (Option.some_inj.mp hif)
      (extractedMissing_ne_pwdRepl kv.1 kv.2 x)
  · exact Option.noConfusion hif

theorem userRepl_not_mem_selfPwdDevs (code : Str) (v : ExtractedValues)
    (x : Str) : userReplMsg x ∉ selfPwdDevs code v := by
  intro hmem
  unfold selfPwdDevs at hmem
  split at hmem
  · split at hmem
    · rw [List.mem_singleton] at hmem
      exact absurd hmem (userRepl_ne_pwdRepl x _)
    · simp at hmem
  · simp at hmem

theorem pwdRepl_not_mem_selfUserDevs (code : Str) (v : ExtractedValues)
    (x : Str) : pwdReplMsg x ∉ selfUserDevs code v := by
  intro hmem
  unfold selfUserDevs at hmem
  split at hmem
  · split at hmem
    · rw [List.mem_singleton] at hmem
      exact absurd hmem.symm (userRepl_ne_pwdRepl _ x)
    · simp at hmem
  · simp at hmem

theorem userRepl_not_mem_forbidden (code x : Str) :
    userReplMsg x ∉ selfForbiddenDevs code := by
  intro hmem
  unfold selfForbiddenDevs at hmem
  rw [List.mem_filterMap] at hmem
  obtain ⟨f, _, hif⟩ := hmem
  split at hif
  · exact absurd (Option.some_inj.mp hif) (unauthorized_ne_userRepl f x)
  · exact Option.noConfusion hif

theorem pwdRepl_not_mem_forbidden (code x : Str) :
    pwdReplMsg x ∉ selfForbiddenDevs code := by
  intro hmem
  unfold selfForbiddenDevs at hmem
  rw [List.mem_filterMap] at hmem
  obtain ⟨f, _, hif⟩ := hmem
  split at hif
  · exact absurd (Option.some_inj.mp hif) (unauthorized_ne_pwdRepl f x)
  · exact Option.noConfusion hif

/-- C4: the self-validation flags `testuser` (resp. `password123`) in the
rendered code whenever the extracted username (resp. password) differs from
that literal, making the result invalid; and when the extracted value is
that very literal, no such replacement deviation is reported. -/
theorem c4_placeholder_substitution (d : Str) (v : ExtractedValues)
    (code : Str) :
    (∀ u, v.username = some u → u ≠ [] → u ≠ str ("testuser") →
      jsIncludes code (str ("testuser")) = true →
      userReplMsg u ∈ performSelfValidation d code v ∧
        performSelfValidation d code v ≠ []) ∧
    (∀ p, v.password = some p → p ≠ [] → p ≠ str ("password123") →
      jsIncludes code (str ("password123")) = true →
      pwdReplMsg p ∈ performSelfValidation d code v ∧
        performSelfValidation d code v ≠ []) ∧
    (v.username = some (str ("testuser")) →
      userReplMsg (str ("testuser")) ∉ performSelfValidation d code v) ∧
    (v.password = some (str ("password123")) →
      pwdReplMsg (str ("password123")) ∉ performSelfValidation d code v) := by
  refine ⟨?_, ?_, ?_, ?_⟩
  · intro u hu hne0 hne hinc
    have hB : selfUserDevs code v = [userReplMsg u] := by
      simp [selfUserDevs, hu, hinc, hne, List.isEmpty_iff, hne0]
    have hmem : userReplMsg u ∈ performSelfValidation d code v := by
      simp only [performSelfValidation]
      rw [hB]
      simp
    exact ⟨hmem, List.ne_nil_of_mem hmem⟩
  · intro p hp hne0 hne hinc
    have hC : selfPwdDevs code v = [pwdReplMsg p] := by
      simp [selfPwdDevs, hp, hinc, hne, List.isEmpty_iff, hne0]
    have hmem : pwdReplMsg p ∈ performSelfValidation d code v := by
      simp only [performSelfValidation]
      rw [hC]
      simp
    exact ⟨hmem, List.ne_nil_of_mem hmem⟩
  · intro hu hmem
    have hB : selfUserDevs code v = [] := by simp [selfUserDevs, hu]
    simp only [performSelfValidation] at hmem
    rw [hB] at hmem
    simp only [List.append_nil, List.mem_append] at hmem
    rcases hmem with (hc | hcp) | hf
    · exact userRepl_not_mem_completeness code v _ hc
    · exact userRepl_not_mem_selfPwdDevs code v _ hcp
    · exact userRepl_not_mem_forbidden code _ hf
  · intro hp hmem
    have hC : selfPwdDevs code v = [] := by simp [selfPwdDevs, hp]
    simp only [performSelfValidation] at hmem
    rw [hC] at hmem
    simp only [List.append_nil, List.mem_append] at hmem
    rcases hmem with (hc | hcu) | hf
    · exact pwdRepl_not_mem_completeness code v _ hc
    · exact pwdRepl_not_mem_selfUserDevs code v _ hcu
    · exact pwdRepl_not_mem_forbidden code _ hf

/-- C4 witness: extracted username `Sam` with code containing `testuser`
yields the replacement deviation and a non-empty error list. -/
theorem c4_placeholder_substitution_witness :
    (vW.username = some (str ("Sam")) ∧ (str ("Sam") : Str) ≠ [] ∧
      (str ("Sam") : Str) ≠ str ("testuser") ∧
      jsIncludes (str ("fill('testuser')")) (str ("testuser")) = true) ∧
    userReplMsg (str ("Sam")) ∈
      performSelfValidation d9 (str ("fill('testuser')")) vW ∧
    performSelfValidation d9 (str ("fill('testuser')")) vW ≠ [] :=
  ⟨⟨by decide, by decide, by decide, by decide⟩,
    (c4_placeholder_substitution d9 vW (str ("fill('testuser')"))).1
      (str ("Sam")) (by decide) (by decide) (by decide) (by decide)⟩

theorem ap1At_mem_cls {t cand : Str} (h : ap1At t = some cand) :
    ∀ c ∈ cand, pwdChar c = true := by
  unfold ap1At at h
  obtain ⟨t2, h2⟩ := optThen_some h
  cases h3 : litCI (str ("password")) t2 with
  | none => rw [h3] at h2; simp at h2
  | some s1 =>
    rw [h3] at h2
    simp only [Option.bind_eq_bind, Option.some_bind] at h2
    cases h4 : ws1 s1 with
    | none => rw [h4] at h2; simp at h2
    | some s2 =>
      rw [h4] at h2
      simp only [Option.bind_eq_bind, Option.some_bind] at h2
      split at h2
      · exact Option.noConfusion h2
      · intro c hc
        rw [← Option.some_inj.mp h2] at hc
        exact List.mem_takeWhile_imp hc

theorem ap2At_mem_cls {t cand : Str} (h : ap2At t = some cand) :
    ∀ c ∈ cand, pwdChar c = true := by
  unfold ap2At at h
  obtain ⟨t2, h2⟩ := optThen_some h
  cases h3 : litCI (str ("pass")) t2 with
  | none => rw [h3] at h2; simp at h2
  | some s1 =>
    rw [h3] at h2
    simp only [Option.bind_eq_bind, Option.some_bind] at h2
    cases h4 : ws1 s1 with
    | none => rw [h4] at h2; simp at h2
    | some s2 =>
      rw [h4] at h2
      simp only [Option.bind_eq_bind, Option.some_bind] at h2
      split at h2
      · exact Option.noConfusion h2
      · intro c hc
        rw [← Option.some_inj.mp h2] at hc
        exact List.mem_takeWhile_imp hc

theorem ap3At_mem_cls {t cand : Str} (h : ap3At t = some cand) :
    ∀ c ∈ cand, pwdChar c = true := by
  unfold ap3At at h
  cases h3 : litCI (str ("and")) t with
  | none => rw [h3] at h; simp at h
  | some s1 =>
    rw [h3] at h
    simp only [Option.bind_eq_bind, Option.some_bind] at h
    cases h4 : ws1 s1 with
    | none => rw [h4] at h; simp at h
    | some s2 =>
      rw [h4] at h
      simp only [Option.bind_eq_bind, Option.some_bind] at h
      cases h5 : capPlus pwdChar ap3End s2 with
      | none => rw [h5] at h; simp at h
      | some pr =>
        rw [h5] at h
        simp only [Option.bind_eq_bind, Option.some_bind] at h
        have hcand : pr.1 = cand := by
          cases pr
          simpa using h
        rw [← hcand]
        exact capPlus_mem_cls h5

/-- The password loop never returns a value rejected by the
substring-of-username guard: any accepted candidate passed
`!values.username?.includes(match[1])`, and its trim is itself because the
candidate is drawn from the password character class. -/
theorem passwordLoop_not_substr {u : Str} :
    ∀ (ms : List (Str → Option Str)) (d p : Str),
    (∀ m ∈ ms, ∀ t cand, m t = some cand → ∀ c ∈ cand, pwdChar c = true) →
    passwordLoop (some u) ms d = some p → jsIncludes u p = false := by
  intro ms
  induction ms with
  | nil =>
    intro d p _ h
    simp [passwordLoop] at h
  | cons m ms ih =>
    intro d p hcls h
    rw [passwordLoop] at h
    split at h
    · rename_i cand hm
      split at h
      · rename_i hcond
        simp only [Bool.and_eq_true] at hcond
        obtain ⟨t, hmt⟩ := scanFor_some hm
        have hcl := hcls m (List.mem_cons_self m ms) t cand hmt
        have htrim : jsTrim cand = cand :=
          jsTrim_eq_self (fun c hc => wsChar_eq_false_of_pwdChar (hcl c hc))
        have hp : p = cand := by
          rw [htrim] at h
          exact (Option.some_inj.mp h).symm
        rw [hp]
        have h2 := hcond.2
        rw [Bool.not_eq_eq_eq_not, Bool.not_true] at h2
        simpa [pwdGuard] using h2
      · exact ih d p (fun m2 hm2 => hcls m2 (List.mem_cons_of_mem m hm2)) h
    · exact ih d p (fun m2 hm2 => hcls m2 (List.mem_cons_of_mem m hm2)) h

/-- C9: if `extractAllValues` returns both a username and a password, the
password is not a substring of the username (the extractor's explicit
exclusion check). -/
theorem c9_password_not_substring_of_username (d u p : Str)
    (hu : (extractAllValues d).username = some u)
    (hp : (extractAllValues d).password = some p) :
    jsIncludes u p = false := by
  have hu' : firstCap [au1At, au2At, au3At, au4At, au5At, au6At] d = some u := hu
  have hp' : passwordLoop
      (firstCap [au1At, au2At, au3At, au4At, au5At, au6At] d)
      [ap1At, ap2At, ap3At] d = some p := hp
  rw [hu'] at hp'
  refine passwordLoop_not_substr [ap1At, ap2At, ap3At] d p ?_ hp'
  intro m hm t cand hmt
  fin_cases hm
  · exact ap1At_mem_cls hmt
  · exact ap2At_mem_cls hmt
  · exact ap3At_mem_cls hmt

/-- C9 witness: on `d9` both values are extracted and the password `sammy`
is not a substring of the username `Sam`. -/
theorem c9_witness :
    ((extractAllValues d9).username = some (str ("Sam")) ∧
      (extractAllValues d9).password = some (str ("sammy"))) ∧
    jsIncludes (str ("Sam")) (str ("sammy")) = false :=
  ⟨⟨by decide, by decide⟩,
    c9_password_not_substring_of_username d9 (str ("Sam")) (str ("sammy"))
      (by decide) (by decide)⟩

/-- The Playwright renderer's output always begins with its imports line,
so it can never carry the `ERROR:` prefix. -/
theorem playCode_no_ERROR (tc : TestCase) :
    jsStartsWith (generatePlaywrightCode tc
      { framework := str ("playwright"), language := str ("typescript") }).code
      (str ("ERROR:")) = false := by
  obtain ⟨rest, hr⟩ : ∃ rest, (generatePlaywrightCode tc
      { framework := str ("playwright"),
        language := str ("typescript") }).code = playImports ++ rest :=
    ⟨_, rfl⟩
  rw [hr]
  rw [show playImports =
    'i' :: str ("mport \x7b test, expect, Page \x7d from '@playwright/test';")
    from rfl]
  rw [List.cons_append]
  show (str ("ERROR:")).isPrefixOf _ = false
  rw [show (str ("ERROR:")) = 'E' :: str ("RROR:") from rfl]
  rw [List.isPrefixOf_cons₂]
  rw [show (('E' == 'i') : Bool) = false from by decide, Bool.false_and]

/-- C8: for every input, the result of `generateFromPlainEnglish` has a
non-empty `errors` array precisely when its `playwrightCode` begins with
the literal `ERROR:` prefix. -/
theorem c8_errors_iff_ERROR_prefix (plainEnglish baseUrl : Str) :
    ((generateFromPlainEnglish plainEnglish baseUrl).errors ≠ [] ↔
      jsStartsWith (generateFromPlainEnglish plainEnglish baseUrl).playwrightCode
        (str ("ERROR:")) = true) := by
  simp only [generateFromPlainEnglish]
  split
  · rename_i hv
    constructor
    · intro hne
      exact absurd rfl hne
    · intro hsw
      rw [playCode_no_ERROR (strictPipelineTestCase plainEnglish baseUrl)] at hsw
      exact absurd hsw (by simp)
  · rename_i e es hv
    constructor
    · intro _
      exact isPrefixOf_append_of_isPrefixOf (by decide) _
    · intro _
      exact List.cons_ne_nil e es

/-- C1 counterexample: the instruction `username Bob and password Y...`
contains the phrase `username X and password Y` with `X = Bob`,
`Y = secret` drawn from the stated character set, yet the resolved
TestCase contains no fill step at all (none of the form patterns requires
only the bare phrase), so it contains no fill with text `Bob`. -/
theorem c1_counterexample :
    (generateTestCase d1 (str ("https://example.com")) {}).steps =
      [{ action := str ("goto"), path := some (str ("/")) }] ∧
    ∀ st ∈ (generateTestCase d1 (str ("https://example.com")) {}).steps,
      st.action ≠ str ("fill") := by
  constructor
  · decide
  · decide

/-- C2 counterexample: on the worked example the pipeline's TestCase is not
the claimed five-step sequence — it has three steps (goto `/`, the two
fills) and no click or assert step. -/
theorem c2_counterexample :
    (strictPipelineTestCase d2 (str ("https://example.com"))).steps ≠
      c2ClaimedSteps ∧
    (strictPipelineTestCase d2 (str ("https://example.com"))).steps.length = 3 ∧
    ∀ st ∈ (strictPipelineTestCase d2 (str ("https://example.com"))).steps,
      st.action ≠ str ("click") ∧ st.action ≠ str ("assert") := by
  refine ⟨by decide, by decide, by decide⟩

/-- C2 amended: the strict pipeline resolves the worked example to
goto `/` followed by the two exact fill steps (`Sam`, `sammy`); the
human-readable `resolvedSteps` checklist additionally lists the login
click and the dashboard assertion as prose lines. -/
theorem c2_amended :
    (strictPipelineTestCase d2 (str ("https://example.com"))).steps =
      [{ action := str ("goto"), path := some (str ("/")) },
       mkFillStep (str ("username")) (str ("Sam")),
       mkFillStep (str ("password")) (str ("sammy"))] ∧
    (generateFromPlainEnglish d2 (str ("https://example.com"))).resolvedSteps =
      [str ("Navigate to login page (URL: // TODO: URL not specified)"),
       str ("Fill username field with \"Sam\""),
       str ("Fill password field with \"sammy\""),
       str ("Click login button"),
       str ("Assert: URL contains '/dashboard' OR login success indicator appears")] := by
  refine ⟨by decide, by decide⟩

/-- C6 counterexample: for the credential-free instruction the strict-mode
validation reports no deviation and no error — the result's `errors` array
is empty and its code is ordinary generated code, not `ERROR:`-prefixed. -/
theorem c6_counterexample :
    (generateFromPlainEnglish d6 (str ("// TODO: URL"))).errors = [] ∧
    jsStartsWith (generateFromPlainEnglish d6 (str ("// TODO: URL"))).playwrightCode
      (str ("ERROR:")) = false := by
  refine ⟨by decide, by decide⟩

/-- C6 amended: the pipeline emits no fill step at all for this
instruction (so no `not specified` markers and no placeholder credentials
appear anywhere), and the self-validation passes: the errors array is
empty and the successful code contains neither `testuser` nor
`password123`. -/
theorem c6_amended :
    (strictPipelineTestCase d6 (str ("// TODO: URL"))).steps =
      [{ action := str ("goto"), path := some (str ("/")) },
       mkAssert (str ("containsText")) (some (cssLoc (str ("body"))))
         (some (str ("error message")))] ∧
    (generateFromPlainEnglish d6 (str ("// TODO: URL"))).errors = [] ∧
    jsIncludes (generateFromPlainEnglish d6 (str ("// TODO: URL"))).playwrightCode
      (str ("testuser")) = false ∧
    jsIncludes (generateFromPlainEnglish d6 (str ("// TODO: URL"))).playwrightCode
      (str ("password123")) = false := by
  refine ⟨by decide, by decide, by decide, by decide⟩

/-- C1 amended: for every instruction of the form
`login with username X and password Y` where `X` and `Y` are non-empty
words over the lower-case credential alphabet `[a-z0-9_@.-]`, the resolved
TestCase contains a fill step with text exactly `X` followed (in order) by
a fill step with text exactly `Y`, for any base URL and options. -/
theorem c1_amended (X Y baseUrl : Str) (options : GenerationOptions)
    (hx : X ≠ []) (hy : Y ≠ [])
    (hxc : ∀ c ∈ X, lcredChar c = true)
    (hyc : ∀ c ∈ Y, lcredChar c = true) :
    List.Sublist
      [mkFillStep (str ("username")) X, mkFillStep (str ("password")) Y]
      (generateTestCase
        (str ("login with username ") ++ (X ++ (str (" and password ") ++ Y)))
        baseUrl options).steps := by
  have hX' : ∀ a ∈ X, credChar a = true :=
    fun a ha => credChar_of_lcred (hxc a ha)
  have hY' : ∀ a ∈ Y, credChar a = true :=
    fun a ha => credChar_of_lcred (hyc a ha)
  have hxe : X.isEmpty = false := by
    rw [Bool.eq_false_iff, Ne, List.isEmpty_iff]
    exact hx
  have hye : Y.isEmpty = false := by
    rw [Bool.eq_false_iff, Ne, List.isEmpty_iff]
    exact hy
  have htX : jsTrim X = X :=
    jsTrim_eq_self (fun c hc => wsChar_eq_false_of_credChar (hX' c hc))
  have htY : jsTrim Y = Y :=
    jsTrim_eq_self (fun c hc => wsChar_eq_false_of_credChar (hY' c hc))
  have hlow : jsToLower
      (str ("login with username ") ++ (X ++ (str (" and password ") ++ Y))) =
      str ("login with username ") ++ (X ++ (str (" and password ") ++ Y)) := by
    unfold jsToLower
    rw [List.map_append, List.map_append, List.map_append]
    rw [map_toLower_eq_self hxc, map_toLower_eq_self hyc]
    rw [show (str ("login with username ")).map Char.toLower =
      str ("login with username ") from by decide]
    rw [show (str (" and password ")).map Char.toLower =
      str (" and password ") from by decide]
  have htail : f1Tail (' ' :: (str ("and password ") ++ Y)) = some Y := by
    have h0 : f1Tail (' ' :: (str ("and password ") ++ Y)) =
        credCap1 (Y.dropWhile wsChar) := rfl
    rw [h0, dropWhile_eq_self_of_head
      (fun c hc => wsChar_eq_false_of_credChar (hY' c hc))]
    unfold credCap1
    rw [takeWhile_eq_self_of_all hY']
    simp [hye]
  have hstop : (X ++ ' ' :: (str ("and password ") ++ Y)).takeWhile credChar
        = X ∧
      (X ++ ' ' :: (str ("and password ") ++ Y)).dropWhile credChar =
        ' ' :: (str ("and password ") ++ Y) :=
    takeWhile_append_stop hX' (by decide)
  have hXdrop : (X ++ (str (" and password ") ++ Y)).dropWhile wsChar =
      X ++ (str (" and password ") ++ Y) := by
    cases X with
    | nil => exact absurd rfl hx
    | cons c t =>
      rw [List.cons_append, List.dropWhile_cons_of_neg]
      have := wsChar_eq_false_of_credChar (hX' c (List.mem_cons_self c t))
      simp [this]
  have hf1 : f1At
      (str ("login with username ") ++ (X ++ (str (" and password ") ++ Y))) =
      some (X, some Y) := by
    have h0 : f1At
        (str ("login with username ") ++
          (X ++ (str (" and password ") ++ Y))) =
        credCapTail f1Tail
          ((X ++ (str (" and password ") ++ Y)).dropWhile wsChar) := rfl
    rw [h0, hXdrop]
    rw [show X ++ (str (" and password ") ++ Y) =
      X ++ ' ' :: (str ("and password ") ++ Y) from rfl]
    unfold credCapTail
    rw [hstop.1, hstop.2, htail, hxe]
    simp
  have hform : parseFormInteractions
      (str ("login with username ") ++ (X ++ (str (" and password ") ++ Y)))
      options.testData =
      [mkFillStep (str ("username")) X, mkFillStep (str ("password")) Y] := by
    unfold parseFormInteractions formPatterns
    rw [formLoop]
    rw [scanFor_of_here hf1]
    simp only [List.enum, List.enumFrom, List.map]
    unfold formFieldStep
    simp [htX, htY, hxe, hye]
  have hsteps : (generateTestCase
      (str ("login with username ") ++ (X ++ (str (" and password ") ++ Y)))
      baseUrl options).steps =
      (if options.includeNavigation.getD true then
        [{ action := str ("goto"),
           path := some (jsOr (extractPath
             (str ("login with username ") ++
               (X ++ (str (" and password ") ++ Y)))) (str ("/"))) }]
       else []) ++
      ([mkFillStep (str ("username")) X, mkFillStep (str ("password")) Y] ++
       (parseClickActions
          (str ("login with username ") ++
            (X ++ (str (" and password ") ++ Y))) ++
        (if options.generateAssertions.getD true then
          parseAssertions
            (str ("login with username ") ++
              (X ++ (str (" and password ") ++ Y)))
         else []))) := by
    simp only [generateTestCase]
    rw [hlow, hform]
    simp [List.append_assoc]
  rw [hsteps]
  exact List.Sublist.trans (List.sublist_append_left _ _)
    (List.sublist_append_right _ _)

/-- C1 witness: the amended theorem applied at `X = sam`, `Y = secret1`. -/
theorem c1_amended_witness :
    ((str ("sam") : Str) ≠ [] ∧ (str ("secret1") : Str) ≠ [] ∧
      (∀ c ∈ (str ("sam") : Str), lcredChar c = true) ∧
      (∀ c ∈ (str ("secret1") : Str), lcredChar c = true)) ∧
    List.Sublist
      [mkFillStep (str ("username")) (str ("sam")),
       mkFillStep (str ("password")) (str ("secret1"))]
      (generateTestCase
        (str ("login with username ") ++
          (str ("sam") ++ (str (" and password ") ++ str ("secret1"))))
        (str ("https://example.com")) {}).steps :=
  ⟨⟨by decide, by decide, by decide, by decide⟩,
    c1_amended (str ("sam")) (str ("secret1")) (str ("https://example.com"))
      {} (by decide) (by decide) (by decide) (by decide)⟩

end Spec
